import Mathlib

/-!
# Expression code generation (GDCore/Events/ExpressionsCodeGeneration.cpp)

A shallow embedding of `gd::CallbacksForGeneratingExpressionCode`.

The callbacks object owns a reference to an output string (`plainExpression`)
and shares a code generator and a generation context with its caller.  Both
shared objects, together with the project, layout and platform they give
access to, are mutable; they are gathered in one state of an arbitrary type
`σ`, and every collaborator method is a function on that state.  A method
returning a value and possibly mutating the shared objects has type
`σ → α × σ`.
-/

namespace gd

/-- An expression argument, as `gd::Expression`: only its plain string is read here. -/
structure Expression where
  plainString : String
deriving DecidableEq, Repr

/-- The accessor `gd::Expression::GetPlainString`. -/
def Expression.GetPlainString (e : Expression) : String := e.plainString

/-- Declared parameter of an expression, as `gd::ParameterMetadata`. The callbacks only
hand the list over to `GenerateParametersCodes`. -/
structure ParameterMetadata where
  type : String
  supplementaryInformation : String
  optional : Bool
deriving DecidableEq, Repr

/-- Metadata of an object type, as `gd::ObjectMetadata`: the callbacks read `includeFiles`
and hand the record to the code generator. -/
structure ObjectMetadata where
  name : String
  includeFiles : List String
deriving DecidableEq, Repr

/-- Metadata of an automatism type, as `gd::AutomatismMetadata`. -/
structure AutomatismMetadata where
  name : String
  includeFiles : List String
deriving DecidableEq, Repr

/-- Modelled from the spec: the class `ExpressionCodeGenerationInformation` is declared in
`ExpressionMetadata.h`, which is not part of the sources at hand. It carries the emitted call
name, the include file, and an optional full-override generator
`(parameters, codeGenerator, context) -> codeText`. -/
structure ExpressionCodeGenerationInformation (σ : Type) where
  functionCallName : String
  optionalIncludeFile : String
  customCodeGenerator : Option (List Expression → σ → String × σ)

/-- The test `HasCustomCodeGenerator()`. -/
def ExpressionCodeGenerationInformation.HasCustomCodeGenerator {σ : Type}
    (i : ExpressionCodeGenerationInformation σ) : Bool :=
  i.customCodeGenerator.isSome

/-- The descriptor of an expression, as `gd::ExpressionMetadata`: the fields the callbacks
read. -/
structure ExpressionMetadata (σ : Type) where
  returnUtf8 : Bool
  parameters : List ParameterMetadata
  codeExtraInformation : ExpressionCodeGenerationInformation σ

/-- The collaborators of the callbacks: the methods of `gd::EventsCodeGenerator`, of
`gd::EventsCodeGenerationContext` (`ObjectsListNeeded`), of `gd::MetadataProvider`
(`GetObjectMetadata`, `GetAutomatismMetadata`) and the free functions `gd::GetTypeOfObject`
and `gd::GetTypeOfAutomatism`. None of them is defined in the sources at hand, so each is a
parameter. The project, layout and platform arguments of the source are read from the
shared state. -/
structure Collaborators (σ : Type) where
  AddIncludeFile : String → σ → σ
  AddIncludeFiles : List String → σ → σ
  ConvertToStringExplicit : String → σ → String × σ
  GenerateParametersCodes : List Expression → List ParameterMetadata → σ → List String × σ
  ExpandObjectsName : String → σ → List String × σ
  ObjectsListNeeded : String → σ → σ
  GetTypeOfObject : σ → String → String
  GetObjectMetadata : σ → String → ObjectMetadata
  GetTypeOfAutomatism : σ → String → String
  GetAutomatismMetadata : σ → String → AutomatismMetadata
  GenerateObjectFunctionCall :
    String → ObjectMetadata → ExpressionCodeGenerationInformation σ → String → String →
      σ → String × σ
  GenerateObjectAutomatismFunctionCall :
    String → String → AutomatismMetadata → ExpressionCodeGenerationInformation σ → String →
      String → σ → String × σ

/-- The data members of `gd::ParserCallbacks`, the base class of the callbacks: the return
type read by `GetReturnType()` and the first error message and position. -/
structure ParserCallbacks where
  returnType : String
  firstErrorStr : String
  firstErrorPos : Nat
deriving DecidableEq, Repr

/-- The data members of a `CallbacksForGeneratingExpressionCode` object: those of its base
class and the output string it refers to. -/
structure CallbacksForGeneratingExpressionCode extends ParserCallbacks where
  plainExpression : String
deriving DecidableEq, Repr

/-- The constructor (lines 26-34): it binds the output string; the inherited members are
those the constructor of the base class leaves, `base`. -/
def CallbacksForGeneratingExpressionCode.new (base : ParserCallbacks)
    (plainExpression_ : String) : CallbacksForGeneratingExpressionCode :=
  { base with plainExpression := plainExpression_ }

/-- The accessor `GetReturnType()`. -/
def CallbacksForGeneratingExpressionCode.GetReturnType
    (cb : CallbacksForGeneratingExpressionCode) : String := cb.returnType

/-- The statement `plainExpression += text`. -/
def CallbacksForGeneratingExpressionCode.append
    (cb : CallbacksForGeneratingExpressionCode) (text : String) :
    CallbacksForGeneratingExpressionCode :=
  { cb with plainExpression := cb.plainExpression ++ text }

/-- The callback `OnConstantToken` (lines 36-39). -/
def OnConstantToken (text : String) (cb : CallbacksForGeneratingExpressionCode) :
    CallbacksForGeneratingExpressionCode :=
  cb.append text

/-- The loop that joins the parameter codes (lines 64-68, 97-101, 146-150):
`for (i = start; i < parametersCode.size(); ++i)` with the separator added when
`i != start`. The first numeric argument bounds the number of iterations. -/
def joinLoop (parametersCode : List String) (start : Nat) : Nat → Nat → String → String
  | 0, _, parametersStr => parametersStr
  | fuel + 1, i, parametersStr =>
    if i < parametersCode.length then
      let parametersStr := if i != start then parametersStr ++ ", " else parametersStr
      joinLoop parametersCode start fuel (i + 1) (parametersStr ++ parametersCode.getD i "")
    else parametersStr

/-- The joined parameters `parametersStr`, starting at index `start`; the loop runs at most
`parametersCode.size()` times. -/
def joinParameters (parametersCode : List String) (start : Nat) : String :=
  joinLoop parametersCode start parametersCode.length start ""

/-- The condition `GetReturnType() == "string" && !expressionInfo.returnUtf8`. -/
def needsLocaleConversion {σ : Type} (cb : CallbacksForGeneratingExpressionCode)
    (expressionInfo : ExpressionMetadata σ) : Bool :=
  cb.GetReturnType == "string" && !expressionInfo.returnUtf8

/-- The end of the three function callbacks (lines 70-76, 119-125, 169-175): the text is
appended, between `gd::utf8::FromLocaleString(` and `)` when the expression returns a locale
string. -/
def emitWithConversion {σ : Type} (cb : CallbacksForGeneratingExpressionCode)
    (expressionInfo : ExpressionMetadata σ) (text : String) :
    CallbacksForGeneratingExpressionCode :=
  let cb1 := if needsLocaleConversion cb expressionInfo
    then cb.append "gd::utf8::FromLocaleString(" else cb
  let cb2 := cb1.append text
  if needsLocaleConversion cb2 expressionInfo then cb2.append ")" else cb2

/-- The callback `OnStaticFunction` (lines 41-77). -/
def OnStaticFunction {σ : Type} (cg : Collaborators σ) (functionName : String)
    (parameters : List Expression) (expressionInfo : ExpressionMetadata σ)
    (cb : CallbacksForGeneratingExpressionCode) (s : σ) :
    CallbacksForGeneratingExpressionCode × σ :=
  let s := cg.AddIncludeFile expressionInfo.codeExtraInformation.optionalIncludeFile s
  match expressionInfo.codeExtraInformation.customCodeGenerator with
  | some customCodeGenerator =>
    let r := customCodeGenerator parameters s
    (cb.append r.1, r.2)
  | none =>
    if cb.GetReturnType == "string" && functionName == "" then
      match parameters with
      | [] => (cb, s)
      | p0 :: _ =>
        let r := cg.ConvertToStringExplicit p0.GetPlainString s
        (cb.append r.1, r.2)
    else
      let pc := cg.GenerateParametersCodes parameters expressionInfo.parameters s
      let parametersStr := joinParameters pc.1 0
      (emitWithConversion cb expressionInfo
        (expressionInfo.codeExtraInformation.functionCallName ++ "(" ++ parametersStr ++ ")"),
       pc.2)

/-- The loop over the concerned objects in `OnObjectFunction` (lines 107-117). -/
def objectFunctionLoop {σ : Type} (cg : Collaborators σ)
    (info : ExpressionCodeGenerationInformation σ) (parametersStr : String) :
    List String → String → σ → String × σ
  | [], output, s => (output, s)
  | realObject :: rest, output, s =>
    let s := cg.ObjectsListNeeded realObject s
    let objectType := cg.GetTypeOfObject s realObject
    let objInfo := cg.GetObjectMetadata s objectType
    let s := cg.AddIncludeFiles objInfo.includeFiles s
    let r := cg.GenerateObjectFunctionCall realObject objInfo info parametersStr output s
    objectFunctionLoop cg info parametersStr rest r.1 r.2

/-- The neutral literal `GetReturnType() == "string" ? "\"\"" : "0"`. -/
def neutralLiteral (cb : CallbacksForGeneratingExpressionCode) : String :=
  if cb.GetReturnType == "string" then "\"\"" else "0"

/-- The callback `OnObjectFunction` (lines 79-126). -/
def OnObjectFunction {σ : Type} (cg : Collaborators σ) (_functionName : String)
    (parameters : List Expression) (expressionInfo : ExpressionMetadata σ)
    (cb : CallbacksForGeneratingExpressionCode) (s : σ) :
    CallbacksForGeneratingExpressionCode × σ :=
  let s := cg.AddIncludeFile expressionInfo.codeExtraInformation.optionalIncludeFile s
  match parameters with
  | [] => (cb, s)
  | p0 :: _ =>
    match expressionInfo.codeExtraInformation.customCodeGenerator with
    | some customCodeGenerator =>
      let r := customCodeGenerator parameters s
      (cb.append r.1, r.2)
    | none =>
      let pc := cg.GenerateParametersCodes parameters expressionInfo.parameters s
      let parametersStr := joinParameters pc.1 1
      let output := neutralLiteral cb
      let realObjects := cg.ExpandObjectsName p0.GetPlainString pc.2
      let r := objectFunctionLoop cg expressionInfo.codeExtraInformation parametersStr
        realObjects.1 output realObjects.2
      (emitWithConversion cb expressionInfo r.1, r.2)

/-- The loop over the concerned objects in `OnObjectAutomatismFunction` (lines 156-167). -/
def objectAutomatismFunctionLoop {σ : Type} (cg : Collaborators σ)
    (automatismName : String) (info : ExpressionCodeGenerationInformation σ)
    (parametersStr : String) : List String → String → σ → String × σ
  | [], output, s => (output, s)
  | realObject :: rest, output, s =>
    let s := cg.ObjectsListNeeded realObject s
    let automatismType := cg.GetTypeOfAutomatism s automatismName
    let autoInfo := cg.GetAutomatismMetadata s automatismType
    let s := cg.AddIncludeFiles autoInfo.includeFiles s
    let r := cg.GenerateObjectAutomatismFunctionCall realObject automatismName autoInfo info
      parametersStr output s
    objectAutomatismFunctionLoop cg automatismName info parametersStr rest r.1 r.2

/-- The callback `OnObjectAutomatismFunction` (lines 128-176). -/
def OnObjectAutomatismFunction {σ : Type} (cg : Collaborators σ) (_functionName : String)
    (parameters : List Expression) (expressionInfo : ExpressionMetadata σ)
    (cb : CallbacksForGeneratingExpressionCode) (s : σ) :
    CallbacksForGeneratingExpressionCode × σ :=
  let s := cg.AddIncludeFile expressionInfo.codeExtraInformation.optionalIncludeFile s
  match parameters with
  | [] => (cb, s)
  | [_] => (cb, s)
  | p0 :: p1 :: _ =>
    match expressionInfo.codeExtraInformation.customCodeGenerator with
    | some customCodeGenerator =>
      let r := customCodeGenerator parameters s
      (cb.append r.1, r.2)
    | none =>
      let pc := cg.GenerateParametersCodes parameters expressionInfo.parameters s
      let parametersStr := joinParameters pc.1 2
      let realObjects := cg.ExpandObjectsName p0.GetPlainString pc.2
      let output := neutralLiteral cb
      let r := objectAutomatismFunctionLoop cg p1.GetPlainString
        expressionInfo.codeExtraInformation parametersStr realObjects.1 output realObjects.2
      (emitWithConversion cb expressionInfo r.1, r.2)

/-- The expression parser, `gd::ExpressionParser`, which is not defined in the sources at
hand: a parse of a plain string drives the callbacks it is given, may use the shared state,
and returns whether it succeeded. `defaultCallbacks` is what the default constructor of
`gd::ParserCallbacks` builds. -/
structure ExpressionParser (σ : Type) where
  defaultCallbacks : ParserCallbacks
  ParseMathExpression : String → CallbacksForGeneratingExpressionCode → σ →
    Bool × CallbacksForGeneratingExpressionCode × σ
  ParseStringExpression : String → CallbacksForGeneratingExpressionCode → σ →
    Bool × CallbacksForGeneratingExpressionCode × σ

/-- The assignments under `#if defined(GD_IDE_ONLY)` (lines 187-190, 206-209). -/
def captureFirstError (GD_IDE_ONLY : Bool) (cb callbacks : CallbacksForGeneratingExpressionCode) :
    CallbacksForGeneratingExpressionCode :=
  if GD_IDE_ONLY then
    { cb with firstErrorStr := callbacks.firstErrorStr, firstErrorPos := callbacks.firstErrorPos }
  else cb

/-- The callback `OnSubMathExpression` (lines 178-195). -/
def OnSubMathExpression {σ : Type} (GD_IDE_ONLY : Bool) (parser : ExpressionParser σ)
    (expression : Expression) (cb : CallbacksForGeneratingExpressionCode) (s : σ) :
    Bool × CallbacksForGeneratingExpressionCode × σ :=
  let newExpression := ""
  let callbacks := CallbacksForGeneratingExpressionCode.new parser.defaultCallbacks newExpression
  let r := parser.ParseMathExpression expression.GetPlainString callbacks s
  if !r.1 then (false, captureFirstError GD_IDE_ONLY cb r.2.1, r.2.2)
  else (true, cb, r.2.2)

/-- The callback `OnSubTextExpression` (lines 197-214). -/
def OnSubTextExpression {σ : Type} (GD_IDE_ONLY : Bool) (parser : ExpressionParser σ)
    (expression : Expression) (cb : CallbacksForGeneratingExpressionCode) (s : σ) :
    Bool × CallbacksForGeneratingExpressionCode × σ :=
  let newExpression := ""
  let callbacks := CallbacksForGeneratingExpressionCode.new parser.defaultCallbacks newExpression
  let r := parser.ParseStringExpression expression.GetPlainString callbacks s
  if !r.1 then (false, captureFirstError GD_IDE_ONLY cb r.2.1, r.2.2)
  else (true, cb, r.2.2)

/-! ## Sample collaborators

A concrete code generator, over a state that logs the include files and the object lists
asked for, on which the callbacks can be evaluated. -/

/-- A sample code generator: parameter `p` compiles to `code(p)`, the object name `Group`
expands to `obj1` and `obj2`, `Nothing` expands to no object, any other name to itself, and
an access is written `acc(object, previous)`. -/
def sampleCollaborators : Collaborators (List String) where
  AddIncludeFile f s := s ++ ["include " ++ f]
  AddIncludeFiles fs s := s ++ fs.map (fun f => "include " ++ f)
  ConvertToStringExplicit p s := ("str(" ++ p ++ ")", s)
  GenerateParametersCodes ps _ s := (ps.map (fun p => "code(" ++ p.plainString ++ ")"), s)
  ExpandObjectsName n s :=
    (if n = "Group" then ["obj1", "obj2"] else if n = "Nothing" then [] else [n], s)
  ObjectsListNeeded o s := s ++ ["need " ++ o]
  GetTypeOfObject _ _ := "Sprite"
  GetObjectMetadata _ t := ⟨t, [t ++ ".h"]⟩
  GetTypeOfAutomatism _ _ := "Physics"
  GetAutomatismMetadata _ t := ⟨t, [t ++ ".h"]⟩
  GenerateObjectFunctionCall o _ _ _ prev s := ("acc(" ++ o ++ ", " ++ prev ++ ")", s)
  GenerateObjectAutomatismFunctionCall o a _ _ ps prev s :=
    ("auto(" ++ o ++ ", " ++ a ++ ", [" ++ ps ++ "], " ++ prev ++ ")", s)

/-- A sample full-override generator: it emits `custom` and logs its call. -/
def sampleGenerator : List Expression → List String → String × List String :=
  fun _ s => ("custom", s ++ ["custom generator"])

/-- A sample descriptor with emitted name `f`, two declared parameters, no override. -/
def sampleInfo (returnUtf8 : Bool) : ExpressionMetadata (List String) where
  returnUtf8 := returnUtf8
  parameters := [⟨"expression", "", false⟩, ⟨"expression", "", false⟩]
  codeExtraInformation := ⟨"f", "f.h", none⟩

/-- A sample descriptor carrying the full-override generator `sampleGenerator`. -/
def sampleOverrideInfo (returnUtf8 : Bool) : ExpressionMetadata (List String) where
  returnUtf8 := returnUtf8
  parameters := []
  codeExtraInformation := ⟨"f", "f.h", some sampleGenerator⟩

/-- A sample callbacks object whose buffer already holds `buf`. -/
def sampleCallbacks (returnType : String) : CallbacksForGeneratingExpressionCode where
  returnType := returnType
  firstErrorStr := ""
  firstErrorPos := 0
  plainExpression := "buf"

/-- The body of the loop of `OnObjectFunction`, as a step on (output, shared state). -/
def objectFunctionStep {σ : Type} (cg : Collaborators σ)
    (info : ExpressionCodeGenerationInformation σ) (parametersStr : String)
    (acc : String × σ) (realObject : String) : String × σ :=
  let s := cg.ObjectsListNeeded realObject acc.2
  let objInfo := cg.GetObjectMetadata s (cg.GetTypeOfObject s realObject)
  cg.GenerateObjectFunctionCall realObject objInfo info parametersStr acc.1
    (cg.AddIncludeFiles objInfo.includeFiles s)

/-- The body of the loop of `OnObjectAutomatismFunction`, as a step on (output, shared
state). -/
def objectAutomatismFunctionStep {σ : Type} (cg : Collaborators σ) (automatismName : String)
    (info : ExpressionCodeGenerationInformation σ) (parametersStr : String)
    (acc : String × σ) (realObject : String) : String × σ :=
  let s := cg.ObjectsListNeeded realObject acc.2
  let autoInfo := cg.GetAutomatismMetadata s (cg.GetTypeOfAutomatism s automatismName)
  cg.GenerateObjectAutomatismFunctionCall realObject automatismName autoInfo info parametersStr
    acc.1 (cg.AddIncludeFiles autoInfo.includeFiles s)

/-- A sample parser: the text `1+` fails with `Missing operand` at position 2, the text `"abc`
fails with `Unterminated string` at position 4, any other text succeeds and is sent to the
callbacks as one constant token. -/
def sampleParser : ExpressionParser (List String) where
  defaultCallbacks := ⟨"expression", "", 0⟩
  ParseMathExpression text callbacks s :=
    if text = "1+" then
      (false, { callbacks with returnType := "expression", firstErrorStr := "Missing operand",
                               firstErrorPos := 2 }, s ++ ["parse " ++ text])
    else (true, OnConstantToken text { callbacks with returnType := "expression" },
      s ++ ["parse " ++ text])
  ParseStringExpression text callbacks s :=
    if text = "\"abc" then
      (false, { callbacks with returnType := "string", firstErrorStr := "Unterminated string",
                               firstErrorPos := 4 }, s ++ ["parse " ++ text])
    else (true, OnConstantToken text { callbacks with returnType := "string" },
      s ++ ["parse " ++ text])

/-- A sample callbacks object that already holds the error `Earlier error` at position 7. -/
def sampleFailedCallbacks : CallbacksForGeneratingExpressionCode where
  returnType := "expression"
  firstErrorStr := "Earlier error"
  firstErrorPos := 7
  plainExpression := "buf"

/-! ## Sequences of callbacks

The parser drives one callbacks object through a sequence of calls. -/

/-- One call of the callback interface, with its arguments. -/
inductive CallbackCall (σ : Type) where
  | constantToken (text : String)
  | staticFunction (functionName : String) (parameters : List Expression)
      (expressionInfo : ExpressionMetadata σ)
  | objectFunction (functionName : String) (parameters : List Expression)
      (expressionInfo : ExpressionMetadata σ)
  | objectAutomatismFunction (functionName : String) (parameters : List Expression)
      (expressionInfo : ExpressionMetadata σ)
  | subMathExpression (expression : Expression)
  | subTextExpression (expression : Expression)

/-- The effect of one call on the callbacks object and the shared state; the success flag of
the two sub-expression callbacks goes to the caller and is not kept. -/
def CallbackCall.run {σ : Type} (GD_IDE_ONLY : Bool) (cg : Collaborators σ)
    (parser : ExpressionParser σ) (call : CallbackCall σ)
    (st : CallbacksForGeneratingExpressionCode × σ) :
    CallbacksForGeneratingExpressionCode × σ :=
  match call with
  | .constantToken text => (OnConstantToken text st.1, st.2)
  | .staticFunction functionName parameters expressionInfo =>
    OnStaticFunction cg functionName parameters expressionInfo st.1 st.2
  | .objectFunction functionName parameters expressionInfo =>
    OnObjectFunction cg functionName parameters expressionInfo st.1 st.2
  | .objectAutomatismFunction functionName parameters expressionInfo =>
    OnObjectAutomatismFunction cg functionName parameters expressionInfo st.1 st.2
  | .subMathExpression expression =>
    (OnSubMathExpression GD_IDE_ONLY parser expression st.1 st.2).2
  | .subTextExpression expression =>
    (OnSubTextExpression GD_IDE_ONLY parser expression st.1 st.2).2

/-- The effect of a finite sequence of calls, in order. -/
def runCallbacks {σ : Type} (GD_IDE_ONLY : Bool) (cg : Collaborators σ)
    (parser : ExpressionParser σ) (calls : List (CallbackCall σ))
    (st : CallbacksForGeneratingExpressionCode × σ) :
    CallbacksForGeneratingExpressionCode × σ :=
  calls.foldl (fun st call => call.run GD_IDE_ONLY cg parser st) st

end gd

/-!
# Variable actions of the JS platform (GDJS/BuiltinExtensions/VariablesExtension.cpp)

The four custom code generators registered for the actions `ModVarScene`, `ModVarSceneTxt`,
`ModVarGlobal` and `ModVarGlobalTxt`.
-/

namespace gdjs

open gd

/-- An instruction, as `gd::Instruction`: only its parameters are read here. -/
structure Instruction where
  parameters : List Expression
deriving DecidableEq, Repr

/-- The accessor `gd::Instruction::GetParameters`. -/
def Instruction.GetParameters (instruction : Instruction) : List Expression :=
  instruction.parameters

/-- The kind of variable a `VariableCodeGenerationCallbacks` object generates code for. -/
inductive VariableScope where
  | LAYOUT_VARIABLE
  | PROJECT_VARIABLE
deriving DecidableEq, Repr

/-- The variable parser, `gd::VariableParser`, driving a `VariableCodeGenerationCallbacks`
object bound to an empty output string; neither is defined in the sources at hand. `Parse`
returns whether the parse succeeded, the output string after it, and the shared state. -/
structure VariableParser (σ : Type) where
  Parse : VariableScope → String → σ → Bool × String × σ

/-- The block that compiles the right-hand expression of the numeric actions (lines 52-58
and 111-117): the code is `0` when the parse fails or leaves the string empty. -/
def mathExpressionCode {σ : Type} (parser : ExpressionParser σ) (plainString : String)
    (s : σ) : String × σ :=
  let expressionCode := ""
  let callbacks := CallbacksForGeneratingExpressionCode.new parser.defaultCallbacks expressionCode
  let r := parser.ParseMathExpression plainString callbacks s
  let expressionCode := r.2.1.plainExpression
  if !r.1 || expressionCode == "" then ("0", r.2.2) else (expressionCode, r.2.2)

/-- The block that compiles the right-hand expression of the string actions (lines 84-90
and 143-149): the code is `""` when the parse fails or leaves the string empty. -/
def stringExpressionCode {σ : Type} (parser : ExpressionParser σ) (plainString : String)
    (s : σ) : String × σ :=
  let expressionCode := ""
  let callbacks := CallbacksForGeneratingExpressionCode.new parser.defaultCallbacks expressionCode
  let r := parser.ParseStringExpression plainString callbacks s
  let expressionCode := r.2.1.plainExpression
  if !r.1 || expressionCode == "" then ("\"\"", r.2.2) else (expressionCode, r.2.2)

/-- The block that builds the variable getter (lines 59-65, 92-98, 118-124, 151-157): the
getter of the scene variable with an empty name when the parse fails. -/
def variableGetter {σ : Type} (variableParser : VariableParser σ) (scope : VariableScope)
    (plainString : String) (s : σ) : String × σ :=
  let r := variableParser.Parse scope plainString s
  if !r.1 then ("runtimeScene.getVariables().get(\"\")", r.2.2) else (r.2.1, r.2.2)

/-- The choice of the statement of the numeric actions (lines 67-79 and 126-138). -/
def numberStatement (op varGetter expressionCode : String) : String :=
  if op == "=" then varGetter ++ ".setNumber(" ++ expressionCode ++ ");\n"
  else if op == "+" then varGetter ++ ".add(" ++ expressionCode ++ ");\n"
  else if op == "-" then varGetter ++ ".sub(" ++ expressionCode ++ ");\n"
  else if op == "*" then varGetter ++ ".mul(" ++ expressionCode ++ ");\n"
  else if op == "/" then varGetter ++ ".div(" ++ expressionCode ++ ");\n"
  else ""

/-- The choice of the statement of the string actions (lines 100-106 and 159-165). -/
def stringStatement (op varGetter expressionCode : String) : String :=
  if op == "=" then varGetter ++ ".setString(" ++ expressionCode ++ ");\n"
  else if op == "+" then varGetter ++ ".concatenate(" ++ expressionCode ++ ");\n"
  else ""

/-- The custom code generator of the action `ModVarScene` (lines 50-80). It reads the
parameters 0, 1 and 2 of the instruction without a test on their number: there is no result
for an instruction with fewer than three parameters. -/
def ModVarScene {σ : Type} (parser : ExpressionParser σ) (variableParser : VariableParser σ)
    (instruction : Instruction) (s : σ) : Option (String × σ) :=
  match instruction.GetParameters with
  | p0 :: p1 :: p2 :: _ =>
    let expressionCode := mathExpressionCode parser p2.GetPlainString s
    let varGetter := variableGetter variableParser .LAYOUT_VARIABLE p0.GetPlainString
      expressionCode.2
    let op := p1.GetPlainString
    some (numberStatement op varGetter.1 expressionCode.1, varGetter.2)
  | _ => none

/-- The custom code generator of the action `ModVarSceneTxt` (lines 82-107). -/
def ModVarSceneTxt {σ : Type} (parser : ExpressionParser σ) (variableParser : VariableParser σ)
    (instruction : Instruction) (s : σ) : Option (String × σ) :=
  match instruction.GetParameters with
  | p0 :: p1 :: p2 :: _ =>
    let expressionCode := stringExpressionCode parser p2.GetPlainString s
    let varGetter := variableGetter variableParser .LAYOUT_VARIABLE p0.GetPlainString
      expressionCode.2
    let op := p1.GetPlainString
    some (stringStatement op varGetter.1 expressionCode.1, varGetter.2)
  | _ => none

/-- The custom code generator of the action `ModVarGlobal` (lines 109-139). -/
def ModVarGlobal {σ : Type} (parser : ExpressionParser σ) (variableParser : VariableParser σ)
    (instruction : Instruction) (s : σ) : Option (String × σ) :=
  match instruction.GetParameters with
  | p0 :: p1 :: p2 :: _ =>
    let expressionCode := mathExpressionCode parser p2.GetPlainString s
    let varGetter := variableGetter variableParser .PROJECT_VARIABLE p0.GetPlainString
      expressionCode.2
    let op := p1.GetPlainString
    some (numberStatement op varGetter.1 expressionCode.1, varGetter.2)
  | _ => none

/-- The custom code generator of the action `ModVarGlobalTxt` (lines 141-166). -/
def ModVarGlobalTxt {σ : Type} (parser : ExpressionParser σ) (variableParser : VariableParser σ)
    (instruction : Instruction) (s : σ) : Option (String × σ) :=
  match instruction.GetParameters with
  | p0 :: p1 :: p2 :: _ =>
    let expressionCode := stringExpressionCode parser p2.GetPlainString s
    let varGetter := variableGetter variableParser .PROJECT_VARIABLE p0.GetPlainString
      expressionCode.2
    let op := p1.GetPlainString
    some (stringStatement op varGetter.1 expressionCode.1, varGetter.2)
  | _ => none

/-- A sample variable parser: the empty name fails; the name `X` gives the getter of `X` in
the scene variables or in the project variables. -/
def sampleVariableParser : VariableParser (List String) where
  Parse scope name s :=
    if name = "" then (false, "", s ++ ["variable"])
    else match scope with
      | .LAYOUT_VARIABLE =>
        (true, "runtimeScene.getVariables().get(\"" ++ name ++ "\")", s ++ ["variable " ++ name])
      | .PROJECT_VARIABLE =>
        (true, "runtimeScene.getGame().getVariables().get(\"" ++ name ++ "\")",
          s ++ ["variable " ++ name])

/-- A sample parser that succeeds on every text without sending anything to the callbacks. -/
def silentParser : ExpressionParser (List String) where
  defaultCallbacks := ⟨"expression", "", 0⟩
  ParseMathExpression _ callbacks s := (true, callbacks, s)
  ParseStringExpression _ callbacks s := (true, callbacks, s)

end gdjs

namespace gd

/-! ## Lemmas on the loops -/

theorem joinLoop_eq_go (parametersCode : List String) (start : Nat) :
    ∀ (fuel i : Nat) (parametersStr : String), start < i → parametersCode.length - i ≤ fuel →
      joinLoop parametersCode start fuel i parametersStr
        = String.intercalate.go parametersStr ", " (parametersCode.drop i) := by
  intro fuel
  induction fuel with
  | zero =>
    intro i acc _ hfuel
    have hdrop : parametersCode.drop i = [] := List.drop_eq_nil_of_le (by omega)
    simp [joinLoop, hdrop, String.intercalate.go]
  | succ n ih =>
    intro i acc hi hfuel
    by_cases hlt : i < parametersCode.length
    · have hne : i ≠ start := by omega
      have hdrop : parametersCode.drop i
          = parametersCode.getD i "" :: parametersCode.drop (i + 1) := by
        rw [List.getD_eq_getElem _ _ hlt]
        exact List.drop_eq_getElem_cons hlt
      rw [hdrop]
      simp only [joinLoop, hlt, if_true, bne_iff_ne, ne_eq, hne, not_false_eq_true,
        String.intercalate.go]
      exact ih (i + 1) _ (by omega) (by omega)
    · have hdrop : parametersCode.drop i = [] := List.drop_eq_nil_of_le (by omega)
      simp [joinLoop, hlt, hdrop, String.intercalate.go]

theorem joinParameters_eq_intercalate (parametersCode : List String) (start : Nat) :
    joinParameters parametersCode start = ", ".intercalate (parametersCode.drop start) := by
  unfold joinParameters
  by_cases hlt : start < parametersCode.length
  · have hdrop : parametersCode.drop start
        = parametersCode.getD start "" :: parametersCode.drop (start + 1) := by
      rw [List.getD_eq_getElem _ _ hlt]
      exact List.drop_eq_getElem_cons hlt
    obtain ⟨n, hn⟩ : ∃ n, parametersCode.length = n + 1 := ⟨parametersCode.length - 1, by omega⟩
    have hfuel : parametersCode.length - (start + 1) ≤ n := by omega
    rw [hdrop, hn]
    simp only [joinLoop, hlt, if_true, bne_self_eq_false, Bool.false_eq_true, if_false,
      String.intercalate]
    rw [joinLoop_eq_go parametersCode start n (start + 1) _ (by omega) hfuel]
    simp
  · have hdrop : parametersCode.drop start = [] := List.drop_eq_nil_of_le (by omega)
    rw [hdrop]
    cases hlen : parametersCode.length with
    | zero => simp [joinLoop, String.intercalate]
    | succ n =>
      have hge : ¬ start < parametersCode.length := hlt
      simp [joinLoop, hge, String.intercalate]

theorem objectFunctionLoop_eq_foldl {σ : Type} (cg : Collaborators σ)
    (info : ExpressionCodeGenerationInformation σ) (parametersStr : String) :
    ∀ (realObjects : List String) (output : String) (s : σ),
      objectFunctionLoop cg info parametersStr realObjects output s
        = realObjects.foldl (objectFunctionStep cg info parametersStr) (output, s) := by
  intro realObjects
  induction realObjects with
  | nil => intro output s; rfl
  | cons o rest ih =>
    intro output s
    simp only [objectFunctionLoop, List.foldl_cons]
    rw [ih]
    rfl

theorem objectFunctionStep_foldl_fst {σ : Type} (cg : Collaborators σ)
    (info : ExpressionCodeGenerationInformation σ) (parametersStr : String)
    (acc : String → String → String)
    (hacc : ∀ inst m prev st,
      (cg.GenerateObjectFunctionCall inst m info parametersStr prev st).1 = acc inst prev) :
    ∀ (realObjects : List String) (a : String × σ),
      (realObjects.foldl (objectFunctionStep cg info parametersStr) a).1
        = realObjects.foldl (fun prev inst => acc inst prev) a.1 := by
  intro realObjects
  induction realObjects with
  | nil => intro a; rfl
  | cons o rest ih =>
    intro a
    simp only [List.foldl_cons]
    rw [ih]
    simp only [objectFunctionStep, hacc]

theorem objectAutomatismFunctionLoop_eq_foldl {σ : Type} (cg : Collaborators σ)
    (automatismName : String) (info : ExpressionCodeGenerationInformation σ)
    (parametersStr : String) :
    ∀ (realObjects : List String) (output : String) (s : σ),
      objectAutomatismFunctionLoop cg automatismName info parametersStr realObjects output s
        = realObjects.foldl (objectAutomatismFunctionStep cg automatismName info parametersStr)
            (output, s) := by
  intro realObjects
  induction realObjects with
  | nil => intro output s; rfl
  | cons o rest ih =>
    intro output s
    simp only [objectAutomatismFunctionLoop, List.foldl_cons]
    rw [ih]
    rfl

theorem emitWithConversion_plainExpression {σ : Type}
    (cb : CallbacksForGeneratingExpressionCode) (info : ExpressionMetadata σ) (text : String) :
    (emitWithConversion cb info text).plainExpression
      = cb.plainExpression ++
          (if cb.returnType = "string" ∧ info.returnUtf8 = false
            then "gd::utf8::FromLocaleString(" ++ text ++ ")" else text) := by
  by_cases h1 : cb.returnType = "string" <;> cases h2 : info.returnUtf8 <;>
    simp [emitWithConversion, needsLocaleConversion,
      CallbacksForGeneratingExpressionCode.GetReturnType,
      CallbacksForGeneratingExpressionCode.append, h1, h2, String.append_assoc]

theorem emitWithConversion_toParserCallbacks {σ : Type}
    (cb : CallbacksForGeneratingExpressionCode) (info : ExpressionMetadata σ) (text : String) :
    (emitWithConversion cb info text).toParserCallbacks = cb.toParserCallbacks := by
  unfold emitWithConversion
  simp only [CallbacksForGeneratingExpressionCode.append]
  split <;> split <;> rfl

/-! ## The claims -/

/-- C1, as stated, fails: with a full-override generator that returns `custom`,
`OnObjectFunction` called with no parameter and `OnObjectAutomatismFunction` called with one
parameter leave the buffer `buf` as it was, instead of appending `custom`. -/
theorem customCodeGenerator_not_reached_on_short_parameter_list :
    (sampleOverrideInfo true).codeExtraInformation.customCodeGenerator = some sampleGenerator
    ∧ (sampleGenerator [] (sampleCollaborators.AddIncludeFile "f.h" [])).1 = "custom"
    ∧ (OnObjectFunction sampleCollaborators "GetX" [] (sampleOverrideInfo true)
        (sampleCallbacks "number") []).1.plainExpression = "buf"
    ∧ (OnObjectFunction sampleCollaborators "GetX" [] (sampleOverrideInfo true)
        (sampleCallbacks "number") []).1.plainExpression
        ≠ (sampleCallbacks "number").plainExpression
            ++ (sampleGenerator [] (sampleCollaborators.AddIncludeFile "f.h" [])).1
    ∧ (OnObjectAutomatismFunction sampleCollaborators "GetX" [⟨"Hero"⟩] (sampleOverrideInfo true)
        (sampleCallbacks "number") []).1.plainExpression = "buf"
    ∧ (OnObjectAutomatismFunction sampleCollaborators "GetX" [⟨"Hero"⟩] (sampleOverrideInfo true)
        (sampleCallbacks "number") []).1.plainExpression
        ≠ (sampleCallbacks "number").plainExpression
            ++ (sampleGenerator [⟨"Hero"⟩] (sampleCollaborators.AddIncludeFile "f.h" [])).1 :=
  ⟨rfl, by decide, by decide, by decide, by decide, by decide⟩

/-- C1, amended: when the descriptor carries a full-override generator, the buffer after the
call is the buffer before it followed by the text the generator returns for the parameters
and the shared state left by `AddIncludeFile`, for every return type and UTF-8 flag: in
`OnStaticFunction` for every parameter list, in `OnObjectFunction` for every non-empty
parameter list, and in `OnObjectAutomatismFunction` for every list of at least two
parameters. With fewer parameters the last two leave the buffer as it was. -/
theorem customCodeGenerator_wins {σ : Type} (cg : Collaborators σ) (functionName : String)
    (parameters : List Expression) (expressionInfo : ExpressionMetadata σ)
    (customCodeGenerator : List Expression → σ → String × σ)
    (cb : CallbacksForGeneratingExpressionCode) (s : σ)
    (hgen : expressionInfo.codeExtraInformation.customCodeGenerator = some customCodeGenerator) :
    (OnStaticFunction cg functionName parameters expressionInfo cb s).1.plainExpression
        = cb.plainExpression ++ (customCodeGenerator parameters
            (cg.AddIncludeFile expressionInfo.codeExtraInformation.optionalIncludeFile s)).1
    ∧ (parameters ≠ [] →
        (OnObjectFunction cg functionName parameters expressionInfo cb s).1.plainExpression
          = cb.plainExpression ++ (customCodeGenerator parameters
              (cg.AddIncludeFile expressionInfo.codeExtraInformation.optionalIncludeFile s)).1)
    ∧ (2 ≤ parameters.length →
        (OnObjectAutomatismFunction cg functionName parameters expressionInfo cb
            s).1.plainExpression
          = cb.plainExpression ++ (customCodeGenerator parameters
              (cg.AddIncludeFile expressionInfo.codeExtraInformation.optionalIncludeFile s)).1)
    ∧ (parameters = [] →
        (OnObjectFunction cg functionName parameters expressionInfo cb s).1.plainExpression
          = cb.plainExpression)
    ∧ (parameters.length < 2 →
        (OnObjectAutomatismFunction cg functionName parameters expressionInfo cb
            s).1.plainExpression = cb.plainExpression) := by
  refine ⟨?_, ?_, ?_, ?_, ?_⟩
  · simp [OnStaticFunction, hgen, CallbacksForGeneratingExpressionCode.append]
  · intro hne
    cases parameters with
    | nil => exact absurd rfl hne
    | cons p0 rest =>
      simp [OnObjectFunction, hgen, CallbacksForGeneratingExpressionCode.append]
  · intro hlen
    match parameters, hlen with
    | p0 :: p1 :: rest, _ =>
      simp [OnObjectAutomatismFunction, hgen, CallbacksForGeneratingExpressionCode.append]
  · intro hnil
    subst hnil
    rfl
  · intro hlen
    match parameters, hlen with
    | [], _ => rfl
    | [_], _ => rfl

/-- C1, amended, on the sample collaborators: the override text `custom` follows `buf` in the
three callbacks, with two parameters, a string return type and the UTF-8 flag unset. -/
theorem customCodeGenerator_wins_witness :
    (sampleOverrideInfo false).codeExtraInformation.customCodeGenerator = some sampleGenerator
    ∧ (OnStaticFunction sampleCollaborators "" [⟨"Hero"⟩, ⟨"Physics"⟩] (sampleOverrideInfo false)
        (sampleCallbacks "string") []).1.plainExpression = "bufcustom"
    ∧ (OnObjectFunction sampleCollaborators "" [⟨"Hero"⟩, ⟨"Physics"⟩] (sampleOverrideInfo false)
        (sampleCallbacks "string") []).1.plainExpression = "bufcustom"
    ∧ (OnObjectAutomatismFunction sampleCollaborators "" [⟨"Hero"⟩, ⟨"Physics"⟩]
        (sampleOverrideInfo false) (sampleCallbacks "string") []).1.plainExpression
        = "bufcustom" :=
  have h := customCodeGenerator_wins sampleCollaborators "" [⟨"Hero"⟩, ⟨"Physics"⟩]
    (sampleOverrideInfo false) sampleGenerator (sampleCallbacks "string") [] rfl
  ⟨rfl, h.1, h.2.1 (by decide), h.2.2.1 (by decide)⟩

/-- C2: in `OnObjectFunction` with a non-empty parameter list, no override generator and a
numeric return type, the appended text is the left fold of the accessor step over the
instances `parameters[0]` expands to, in expansion order, seeded with `0`: each step passes
the text returned by the previous one as previous output. When the accessor text is
`acc inst prev`, the appended text is the fold of `acc`, and for the two instances
`obj1`, `obj2` it is `acc obj2 (acc obj1 "0")`. -/
theorem OnObjectFunction_numeric_fold {σ : Type} (cg : Collaborators σ) (functionName : String)
    (p0 : Expression) (rest : List Expression) (expressionInfo : ExpressionMetadata σ)
    (cb : CallbacksForGeneratingExpressionCode) (s : σ)
    (hgen : expressionInfo.codeExtraInformation.customCodeGenerator = none)
    (hnum : cb.GetReturnType ≠ "string") :
    let pc := cg.GenerateParametersCodes (p0 :: rest) expressionInfo.parameters
      (cg.AddIncludeFile expressionInfo.codeExtraInformation.optionalIncludeFile s)
    let parametersStr := ", ".intercalate (pc.1.drop 1)
    let realObjects := cg.ExpandObjectsName p0.GetPlainString pc.2
    let appended := (realObjects.1.foldl
      (fun (previous : String × σ) (realObject : String) =>
        cg.GenerateObjectFunctionCall realObject
          (cg.GetObjectMetadata (cg.ObjectsListNeeded realObject previous.2)
            (cg.GetTypeOfObject (cg.ObjectsListNeeded realObject previous.2) realObject))
          expressionInfo.codeExtraInformation parametersStr previous.1
          (cg.AddIncludeFiles
            (cg.GetObjectMetadata (cg.ObjectsListNeeded realObject previous.2)
              (cg.GetTypeOfObject (cg.ObjectsListNeeded realObject previous.2)
                realObject)).includeFiles
            (cg.ObjectsListNeeded realObject previous.2)))
      ("0", realObjects.2)).1
    (OnObjectFunction cg functionName (p0 :: rest) expressionInfo cb s).1.plainExpression
        = cb.plainExpression ++ appended
    ∧ ∀ acc : String → String → String,
        (∀ inst m prev st, (cg.GenerateObjectFunctionCall inst m
            expressionInfo.codeExtraInformation parametersStr prev st).1 = acc inst prev) →
        appended = realObjects.1.foldl (fun prev inst => acc inst prev) "0"
        ∧ ∀ obj1 obj2 : String, realObjects.1 = [obj1, obj2] →
            appended = acc obj2 (acc obj1 "0") := by
  intro pc parametersStr realObjects appended
  have hstep : appended
      = (realObjects.1.foldl
          (objectFunctionStep cg expressionInfo.codeExtraInformation parametersStr)
          ("0", realObjects.2)).1 := rfl
  have hnum2 : ¬ cb.returnType = "string" := hnum
  refine ⟨?_, ?_⟩
  · have hneutral : neutralLiteral cb = "0" := by simp [neutralLiteral, hnum]
    simp only [OnObjectFunction, hgen, emitWithConversion_plainExpression, hneutral,
      objectFunctionLoop_eq_foldl, joinParameters_eq_intercalate, hnum2, false_and, if_false]
    rw [hstep]
  · intro acc hacc
    have hfold : appended = realObjects.1.foldl (fun prev inst => acc inst prev) "0" := by
      rw [hstep, objectFunctionStep_foldl_fst cg _ _ acc hacc]
    refine ⟨hfold, ?_⟩
    intro obj1 obj2 hobjs
    rw [hfold, hobjs]
    rfl

/-- C2 on the sample collaborators: `Group.GetX()` expands to `obj1` and `obj2`, and the
appended text is `acc(obj2, acc(obj1, 0))`. -/
theorem OnObjectFunction_numeric_fold_witness :
    (sampleInfo true).codeExtraInformation.customCodeGenerator = none
    ∧ (sampleCallbacks "number").GetReturnType ≠ "string"
    ∧ (OnObjectFunction sampleCollaborators "GetX" [⟨"Group"⟩] (sampleInfo true)
        (sampleCallbacks "number") []).1.plainExpression
        = "buf" ++ "acc(obj2, acc(obj1, 0))"
    ∧ "acc(obj2, acc(obj1, 0))"
        = (fun inst prev => "acc(" ++ inst ++ ", " ++ prev ++ ")") "obj2"
            ((fun inst prev => "acc(" ++ inst ++ ", " ++ prev ++ ")") "obj1" "0") :=
  have h := OnObjectFunction_numeric_fold sampleCollaborators "GetX" ⟨"Group"⟩ []
    (sampleInfo true) (sampleCallbacks "number") [] rfl (by decide)
  ⟨rfl, by decide, h.1,
    (h.2 (fun inst prev => "acc(" ++ inst ++ ", " ++ prev ++ ")")
      (fun _ _ _ _ => rfl)).2 "obj1" "obj2" rfl⟩

/-- C3, as stated, fails: with a string return type and the UTF-8 flag unset, an object name
that expands to no instance yields the empty-string literal inside the locale conversion
call, not the bare literal. -/
theorem OnObjectFunction_empty_expansion_wrapped :
    (sampleInfo false).codeExtraInformation.customCodeGenerator = none
    ∧ (sampleCollaborators.ExpandObjectsName "Nothing" ["include f.h"]).1 = []
    ∧ (OnObjectFunction sampleCollaborators "GetName" [⟨"Nothing"⟩] (sampleInfo false)
        (sampleCallbacks "string") []).1.plainExpression
        = "buf" ++ "gd::utf8::FromLocaleString(\"\")"
    ∧ (OnObjectFunction sampleCollaborators "GetName" [⟨"Nothing"⟩] (sampleInfo false)
        (sampleCallbacks "string") []).1.plainExpression
        ≠ (sampleCallbacks "string").plainExpression ++ "\"\"" :=
  ⟨rfl, by decide, by decide, by decide⟩

/-- C3, amended: in `OnObjectFunction` with a non-empty parameter list and no override
generator, when the object name expands to no instance, no accessor call is generated (the
result is the same whatever `GenerateObjectFunctionCall` is, and the shared state is the one
`ExpandObjectsName` leaves) and the appended text is `0` for a numeric return type, `""` for
a string return type with the UTF-8 flag set, and `gd::utf8::FromLocaleString("")` for a
string return type with the flag unset. -/
theorem OnObjectFunction_empty_expansion {σ : Type} (cg : Collaborators σ)
    (functionName : String) (p0 : Expression) (rest : List Expression)
    (expressionInfo : ExpressionMetadata σ) (cb : CallbacksForGeneratingExpressionCode) (s : σ)
    (hgen : expressionInfo.codeExtraInformation.customCodeGenerator = none)
    (hempty : (cg.ExpandObjectsName p0.GetPlainString
      (cg.GenerateParametersCodes (p0 :: rest) expressionInfo.parameters
        (cg.AddIncludeFile expressionInfo.codeExtraInformation.optionalIncludeFile s)).2).1
        = []) :
    (cb.GetReturnType ≠ "string" →
      (OnObjectFunction cg functionName (p0 :: rest) expressionInfo cb s).1.plainExpression
        = cb.plainExpression ++ "0")
    ∧ (cb.GetReturnType = "string" → expressionInfo.returnUtf8 = true →
        (OnObjectFunction cg functionName (p0 :: rest) expressionInfo cb s).1.plainExpression
          = cb.plainExpression ++ "\"\"")
    ∧ (cb.GetReturnType = "string" → expressionInfo.returnUtf8 = false →
        (OnObjectFunction cg functionName (p0 :: rest) expressionInfo cb s).1.plainExpression
          = cb.plainExpression ++ ("gd::utf8::FromLocaleString(" ++ "\"\"" ++ ")"))
    ∧ (OnObjectFunction cg functionName (p0 :: rest) expressionInfo cb s).2
        = (cg.ExpandObjectsName p0.GetPlainString
            (cg.GenerateParametersCodes (p0 :: rest) expressionInfo.parameters
              (cg.AddIncludeFile expressionInfo.codeExtraInformation.optionalIncludeFile
                s)).2).2
    ∧ ∀ g, OnObjectFunction { cg with GenerateObjectFunctionCall := g } functionName
          (p0 :: rest) expressionInfo cb s
        = OnObjectFunction cg functionName (p0 :: rest) expressionInfo cb s := by
  have hrun : ∀ g, OnObjectFunction { cg with GenerateObjectFunctionCall := g } functionName
      (p0 :: rest) expressionInfo cb s
      = (emitWithConversion cb expressionInfo (neutralLiteral cb),
          (cg.ExpandObjectsName p0.GetPlainString
            (cg.GenerateParametersCodes (p0 :: rest) expressionInfo.parameters
              (cg.AddIncludeFile expressionInfo.codeExtraInformation.optionalIncludeFile
                s)).2).2) := by
    intro g
    simp only [OnObjectFunction, hgen, hempty, objectFunctionLoop]
  have hcg : OnObjectFunction cg functionName (p0 :: rest) expressionInfo cb s
      = (emitWithConversion cb expressionInfo (neutralLiteral cb),
          (cg.ExpandObjectsName p0.GetPlainString
            (cg.GenerateParametersCodes (p0 :: rest) expressionInfo.parameters
              (cg.AddIncludeFile expressionInfo.codeExtraInformation.optionalIncludeFile
                s)).2).2) := hrun cg.GenerateObjectFunctionCall
  refine ⟨?_, ?_, ?_, ?_, ?_⟩
  · intro hnum
    have hnum2 : ¬ cb.returnType = "string" := hnum
    rw [hcg]
    simp [emitWithConversion_plainExpression, neutralLiteral, hnum, hnum2]
  · intro hstr hutf
    have hstr2 : cb.returnType = "string" := hstr
    rw [hcg]
    simp [emitWithConversion_plainExpression, neutralLiteral, hstr, hstr2, hutf]
  · intro hstr hutf
    have hstr2 : cb.returnType = "string" := hstr
    rw [hcg]
    simp [emitWithConversion_plainExpression, neutralLiteral, hstr, hstr2, hutf]
  · rw [hcg]
  · intro g
    rw [hrun g, hcg]

/-- C3, amended, on the sample collaborators: `Nothing` expands to no instance; the appended
text is `0` for a numeric return type and the wrapped literal for a locale string. -/
theorem OnObjectFunction_empty_expansion_witness :
    (sampleInfo false).codeExtraInformation.customCodeGenerator = none
    ∧ (sampleCollaborators.ExpandObjectsName "Nothing" ["include f.h"]).1 = []
    ∧ (sampleCallbacks "number").GetReturnType ≠ "string"
    ∧ (OnObjectFunction sampleCollaborators "GetX" [⟨"Nothing"⟩, ⟨"1"⟩] (sampleInfo false)
        (sampleCallbacks "number") []).1.plainExpression = "buf" ++ "0"
    ∧ (OnObjectFunction sampleCollaborators "GetX" [⟨"Nothing"⟩, ⟨"1"⟩] (sampleInfo false)
        (sampleCallbacks "string") []).1.plainExpression
        = "buf" ++ ("gd::utf8::FromLocaleString(" ++ "\"\"" ++ ")") :=
  ⟨rfl, by decide, by decide,
    (OnObjectFunction_empty_expansion sampleCollaborators "GetX" ⟨"Nothing"⟩ [⟨"1"⟩]
      (sampleInfo false) (sampleCallbacks "number") [] rfl (by decide)).1 (by decide),
    (OnObjectFunction_empty_expansion sampleCollaborators "GetX" ⟨"Nothing"⟩ [⟨"1"⟩]
      (sampleInfo false) (sampleCallbacks "string") [] rfl (by decide)).2.2.1 (by decide) rfl⟩

/-- C4, as stated, fails: on a descriptor that carries a full-override generator,
`OnStaticFunction` with an empty name and a string return type appends the generator's text
`custom`, with one parameter (instead of its string conversion) and with none (instead of
nothing). -/
theorem OnStaticFunction_bare_string_overridden :
    (OnStaticFunction sampleCollaborators "" [⟨"hello"⟩] (sampleOverrideInfo true)
        (sampleCallbacks "string") []).1.plainExpression = "buf" ++ "custom"
    ∧ (sampleCollaborators.ConvertToStringExplicit "hello"
        (sampleCollaborators.AddIncludeFile "f.h" [])).1 = "str(hello)"
    ∧ (OnStaticFunction sampleCollaborators "" [⟨"hello"⟩] (sampleOverrideInfo true)
        (sampleCallbacks "string") []).1.plainExpression
        ≠ (sampleCallbacks "string").plainExpression
            ++ (sampleCollaborators.ConvertToStringExplicit "hello"
                (sampleCollaborators.AddIncludeFile "f.h" [])).1
    ∧ (OnStaticFunction sampleCollaborators "" [] (sampleOverrideInfo true)
        (sampleCallbacks "string") []).1.plainExpression
        ≠ (sampleCallbacks "string").plainExpression := by
  decide

/-- C4, amended: in `OnStaticFunction` called with an empty function name while the return
type is string, on a descriptor without override generator and whatever its other fields
are, the appended text is `ConvertToStringExplicit` of the first parameter's plain string
when there is a parameter, and the callbacks object is left as it was when there is none. -/
theorem OnStaticFunction_bare_string {σ : Type} (cg : Collaborators σ)
    (parameters : List Expression) (expressionInfo : ExpressionMetadata σ)
    (cb : CallbacksForGeneratingExpressionCode) (s : σ)
    (hgen : expressionInfo.codeExtraInformation.customCodeGenerator = none)
    (hstr : cb.GetReturnType = "string") :
    (∀ p0 rest, parameters = p0 :: rest →
      (OnStaticFunction cg "" parameters expressionInfo cb s).1.plainExpression
        = cb.plainExpression ++ (cg.ConvertToStringExplicit p0.GetPlainString
            (cg.AddIncludeFile expressionInfo.codeExtraInformation.optionalIncludeFile s)).1)
    ∧ (parameters = [] →
        (OnStaticFunction cg "" parameters expressionInfo cb s).1 = cb) := by
  constructor
  · intro p0 rest hp
    subst hp
    simp [OnStaticFunction, hgen, hstr, CallbacksForGeneratingExpressionCode.append]
  · intro hp
    subst hp
    simp [OnStaticFunction, hgen, hstr]

/-- C4, amended, on the sample collaborators: the bare string `hello` becomes `str(hello)`,
and nothing is appended without parameter. -/
theorem OnStaticFunction_bare_string_witness :
    (sampleInfo false).codeExtraInformation.customCodeGenerator = none
    ∧ (sampleCallbacks "string").GetReturnType = "string"
    ∧ (OnStaticFunction sampleCollaborators "" [⟨"hello"⟩, ⟨"more"⟩] (sampleInfo false)
        (sampleCallbacks "string") []).1.plainExpression = "buf" ++ "str(hello)"
    ∧ (OnStaticFunction sampleCollaborators "" [] (sampleInfo false)
        (sampleCallbacks "string") []).1 = sampleCallbacks "string" :=
  ⟨rfl, rfl,
    (OnStaticFunction_bare_string sampleCollaborators [⟨"hello"⟩, ⟨"more"⟩] (sampleInfo false)
      (sampleCallbacks "string") [] rfl rfl).1 ⟨"hello"⟩ [⟨"more"⟩] rfl,
    (OnStaticFunction_bare_string sampleCollaborators [] (sampleInfo false)
      (sampleCallbacks "string") [] rfl rfl).2 rfl⟩

/-- C5: in `OnStaticFunction` with a numeric return type and no override generator, the
appended text is the emitted call name, `(`, the parameter codes joined with `, ` in the
order `GenerateParametersCodes` returns them, and `)`, without conversion call whatever the
UTF-8 flag; for the two codes `c1`, `c2` it is `f(c1, c2)`. -/
theorem OnStaticFunction_numeric_call {σ : Type} (cg : Collaborators σ) (functionName : String)
    (parameters : List Expression) (expressionInfo : ExpressionMetadata σ)
    (cb : CallbacksForGeneratingExpressionCode) (s : σ)
    (hgen : expressionInfo.codeExtraInformation.customCodeGenerator = none)
    (hnum : cb.GetReturnType ≠ "string") :
    (OnStaticFunction cg functionName parameters expressionInfo cb s).1.plainExpression
        = cb.plainExpression ++ (expressionInfo.codeExtraInformation.functionCallName ++ "("
            ++ ", ".intercalate (cg.GenerateParametersCodes parameters expressionInfo.parameters
                (cg.AddIncludeFile expressionInfo.codeExtraInformation.optionalIncludeFile
                  s)).1
            ++ ")")
    ∧ ∀ c1 c2 : String,
        (cg.GenerateParametersCodes parameters expressionInfo.parameters
          (cg.AddIncludeFile expressionInfo.codeExtraInformation.optionalIncludeFile s)).1
          = [c1, c2] →
        (OnStaticFunction cg functionName parameters expressionInfo cb s).1.plainExpression
          = cb.plainExpression ++ (expressionInfo.codeExtraInformation.functionCallName ++ "("
              ++ c1 ++ ", " ++ c2 ++ ")") := by
  have hnum2 : ¬ cb.returnType = "string" := hnum
  have hbeq : (cb.GetReturnType == "string") = false := by simp [hnum]
  have hmain : (OnStaticFunction cg functionName parameters expressionInfo cb
      s).1.plainExpression
      = cb.plainExpression ++ (expressionInfo.codeExtraInformation.functionCallName ++ "("
          ++ ", ".intercalate (cg.GenerateParametersCodes parameters expressionInfo.parameters
              (cg.AddIncludeFile expressionInfo.codeExtraInformation.optionalIncludeFile
                s)).1
          ++ ")") := by
    simp only [OnStaticFunction, hgen, hbeq, Bool.false_and, Bool.false_eq_true, if_false,
      emitWithConversion_plainExpression, hnum2, false_and, joinParameters_eq_intercalate,
      List.drop_zero]
  refine ⟨hmain, ?_⟩
  intro c1 c2 hcodes
  rw [hmain, hcodes]
  simp [String.intercalate, String.intercalate.go, String.append_assoc]

/-- C5 on the sample collaborators: `f(code(a), code(b))`, with the UTF-8 flag unset. -/
theorem OnStaticFunction_numeric_call_witness :
    (sampleInfo false).codeExtraInformation.customCodeGenerator = none
    ∧ (sampleCallbacks "number").GetReturnType ≠ "string"
    ∧ (OnStaticFunction sampleCollaborators "name" [⟨"a"⟩, ⟨"b"⟩] (sampleInfo false)
        (sampleCallbacks "number") []).1.plainExpression
        = "buf" ++ ("f" ++ "(" ++ "code(a)" ++ ", " ++ "code(b)" ++ ")") :=
  ⟨rfl, by decide,
    (OnStaticFunction_numeric_call sampleCollaborators "name" [⟨"a"⟩, ⟨"b"⟩] (sampleInfo false)
      (sampleCallbacks "number") [] rfl (by decide)).2 "code(a)" "code(b)" rfl⟩

/-- C6: in `OnStaticFunction` with a string return type, a non-empty function name and no
override generator, on the same parameters and two descriptors that differ only in the UTF-8
flag: with the flag set the appended text is `f(<joined parameter codes>)`, with the flag
unset it is `gd::utf8::FromLocaleString(` followed by that text and `)`; the shared state
after the call is the same. -/
theorem OnStaticFunction_string_conversion {σ : Type} (cg : Collaborators σ)
    (functionName : String) (parameters : List Expression)
    (utf8Info localeInfo : ExpressionMetadata σ)
    (cb : CallbacksForGeneratingExpressionCode) (s : σ)
    (hstr : cb.GetReturnType = "string") (hname : functionName ≠ "")
    (hgen : utf8Info.codeExtraInformation.customCodeGenerator = none)
    (hutf8 : utf8Info.returnUtf8 = true) (hlocale : localeInfo.returnUtf8 = false)
    (hparameters : localeInfo.parameters = utf8Info.parameters)
    (hextra : localeInfo.codeExtraInformation = utf8Info.codeExtraInformation) :
    let call := utf8Info.codeExtraInformation.functionCallName ++ "("
      ++ ", ".intercalate (cg.GenerateParametersCodes parameters utf8Info.parameters
          (cg.AddIncludeFile utf8Info.codeExtraInformation.optionalIncludeFile s)).1
      ++ ")"
    (OnStaticFunction cg functionName parameters utf8Info cb s).1.plainExpression
        = cb.plainExpression ++ call
    ∧ (OnStaticFunction cg functionName parameters localeInfo cb s).1.plainExpression
        = cb.plainExpression ++ ("gd::utf8::FromLocaleString(" ++ call ++ ")")
    ∧ (OnStaticFunction cg functionName parameters localeInfo cb s).2
        = (OnStaticFunction cg functionName parameters utf8Info cb s).2 := by
  intro call
  have hstr2 : cb.returnType = "string" := hstr
  have hgen2 : localeInfo.codeExtraInformation.customCodeGenerator = none := by
    rw [hextra]; exact hgen
  have hbeq : (functionName == "") = false := by simp [hname]
  refine ⟨?_, ?_, ?_⟩
  · simp only [OnStaticFunction, hgen, hbeq, Bool.and_false, Bool.false_eq_true, if_false,
      emitWithConversion_plainExpression, hstr2, hutf8, joinParameters_eq_intercalate,
      List.drop_zero]
    simp [call]
  · simp only [OnStaticFunction, hgen2, hbeq, Bool.and_false, Bool.false_eq_true, if_false,
      emitWithConversion_plainExpression, hstr2, hlocale, joinParameters_eq_intercalate,
      List.drop_zero, hparameters]
    simp [call, hextra]
  · simp only [OnStaticFunction, hgen, hgen2, hbeq, Bool.and_false, Bool.false_eq_true,
      if_false, hparameters]
    rw [hextra]

/-- C6 on the sample collaborators: `f(code(a))` with the flag set, and the same text in
`gd::utf8::FromLocaleString(...)` with the flag unset. -/
theorem OnStaticFunction_string_conversion_witness :
    (sampleCallbacks "string").GetReturnType = "string" ∧ "name" ≠ ""
    ∧ (sampleInfo true).codeExtraInformation.customCodeGenerator = none
    ∧ (sampleInfo true).returnUtf8 = true ∧ (sampleInfo false).returnUtf8 = false
    ∧ (sampleInfo false).parameters = (sampleInfo true).parameters
    ∧ (sampleInfo false).codeExtraInformation = (sampleInfo true).codeExtraInformation
    ∧ (OnStaticFunction sampleCollaborators "name" [⟨"a"⟩] (sampleInfo true)
        (sampleCallbacks "string") []).1.plainExpression = "buf" ++ "f(code(a))"
    ∧ (OnStaticFunction sampleCollaborators "name" [⟨"a"⟩] (sampleInfo false)
        (sampleCallbacks "string") []).1.plainExpression
        = "buf" ++ ("gd::utf8::FromLocaleString(" ++ "f(code(a))" ++ ")") :=
  have h := OnStaticFunction_string_conversion sampleCollaborators "name" [⟨"a"⟩]
    (sampleInfo true) (sampleInfo false) (sampleCallbacks "string") [] rfl (by decide) rfl
    rfl rfl rfl rfl
  ⟨rfl, by decide, rfl, rfl, rfl, rfl, rfl, h.1, h.2.1⟩

/-- C7: a function callback with fewer parameters than its kind requires emits nothing and
signals no failure: `OnObjectFunction` with an empty parameter list and
`OnObjectAutomatismFunction` with fewer than two parameters return the callbacks object
(buffer, error message and position) as it was, for every descriptor; the only effect is the
registration of the include file. -/
theorem short_parameter_list_emits_nothing {σ : Type} (cg : Collaborators σ)
    (functionName : String) (parameters : List Expression)
    (expressionInfo : ExpressionMetadata σ) (cb : CallbacksForGeneratingExpressionCode) (s : σ)
    (hshort : parameters.length < 2) :
    OnObjectAutomatismFunction cg functionName parameters expressionInfo cb s
        = (cb, cg.AddIncludeFile expressionInfo.codeExtraInformation.optionalIncludeFile s)
    ∧ (parameters = [] →
        OnObjectFunction cg functionName parameters expressionInfo cb s
          = (cb, cg.AddIncludeFile expressionInfo.codeExtraInformation.optionalIncludeFile
              s)) := by
  constructor
  · match parameters, hshort with
    | [], _ => rfl
    | [_], _ => rfl
  · intro hnil
    subst hnil
    rfl

/-- C7 on the sample collaborators: an automatism function with the object name only, and
an object function without parameter, leave the callbacks object as it was, also when the
descriptor carries an override generator. -/
theorem short_parameter_list_emits_nothing_witness :
    [(⟨"Hero"⟩ : Expression)].length < 2
    ∧ OnObjectAutomatismFunction sampleCollaborators "Speed" [⟨"Hero"⟩] (sampleOverrideInfo false)
        (sampleCallbacks "string") [] = (sampleCallbacks "string", ["include f.h"])
    ∧ OnObjectFunction sampleCollaborators "GetX" [] (sampleInfo false)
        (sampleCallbacks "string") [] = (sampleCallbacks "string", ["include f.h"]) :=
  ⟨by decide,
    (short_parameter_list_emits_nothing sampleCollaborators "Speed" [⟨"Hero"⟩]
      (sampleOverrideInfo false) (sampleCallbacks "string") [] (by decide)).1,
    (short_parameter_list_emits_nothing sampleCollaborators "GetX" [] (sampleInfo false)
      (sampleCallbacks "string") [] (by decide)).2 rfl⟩

/-- C8: in `OnObjectAutomatismFunction` with at least two parameters and no override
generator, the joined parameter text is made of the parameter codes from index 2 onward,
joined with `, `, and the appended text is the left fold, over the instances `parameters[0]`
expands to, of `GenerateObjectAutomatismFunctionCall` applied to the instance, the plain
string of `parameters[1]`, the automatism metadata resolved from it, the joined parameters
and the previous output, seeded with `0` (numeric) or `""` (string); it is wrapped in the
locale conversion call when the return type is string and the UTF-8 flag is unset, which is
also how `OnObjectFunction` emits the output of its own loop. -/
theorem OnObjectAutomatismFunction_fold {σ : Type} (cg : Collaborators σ)
    (functionName : String) (p0 p1 : Expression) (rest : List Expression)
    (expressionInfo : ExpressionMetadata σ) (cb : CallbacksForGeneratingExpressionCode) (s : σ)
    (hgen : expressionInfo.codeExtraInformation.customCodeGenerator = none) :
    let pc := cg.GenerateParametersCodes (p0 :: p1 :: rest) expressionInfo.parameters
      (cg.AddIncludeFile expressionInfo.codeExtraInformation.optionalIncludeFile s)
    let parametersStr := ", ".intercalate (pc.1.drop 2)
    let realObjects := cg.ExpandObjectsName p0.GetPlainString pc.2
    let seed := if cb.GetReturnType = "string" then "\"\"" else "0"
    let output := (realObjects.1.foldl
      (fun (previous : String × σ) (realObject : String) =>
        cg.GenerateObjectAutomatismFunctionCall realObject p1.GetPlainString
          (cg.GetAutomatismMetadata (cg.ObjectsListNeeded realObject previous.2)
            (cg.GetTypeOfAutomatism (cg.ObjectsListNeeded realObject previous.2)
              p1.GetPlainString))
          expressionInfo.codeExtraInformation parametersStr previous.1
          (cg.AddIncludeFiles
            (cg.GetAutomatismMetadata (cg.ObjectsListNeeded realObject previous.2)
              (cg.GetTypeOfAutomatism (cg.ObjectsListNeeded realObject previous.2)
                p1.GetPlainString)).includeFiles
            (cg.ObjectsListNeeded realObject previous.2)))
      (seed, realObjects.2)).1
    let wrap := fun (text : String) =>
      if cb.GetReturnType = "string" ∧ expressionInfo.returnUtf8 = false
        then "gd::utf8::FromLocaleString(" ++ text ++ ")" else text
    (OnObjectAutomatismFunction cg functionName (p0 :: p1 :: rest) expressionInfo cb
        s).1.plainExpression = cb.plainExpression ++ wrap output
    ∧ (OnObjectFunction cg functionName (p0 :: p1 :: rest) expressionInfo cb
        s).1.plainExpression
        = cb.plainExpression ++ wrap
            (objectFunctionLoop cg expressionInfo.codeExtraInformation
              (", ".intercalate (pc.1.drop 1)) realObjects.1 seed realObjects.2).1 := by
  intro pc parametersStr realObjects seed output wrap
  have hstep : output
      = (realObjects.1.foldl
          (objectAutomatismFunctionStep cg p1.GetPlainString
            expressionInfo.codeExtraInformation parametersStr)
          (seed, realObjects.2)).1 := rfl
  have hseed : neutralLiteral cb = seed := by
    by_cases h : cb.GetReturnType = "string" <;> simp [neutralLiteral, seed, h]
  constructor
  · simp only [OnObjectAutomatismFunction, hgen, emitWithConversion_plainExpression, hseed,
      objectAutomatismFunctionLoop_eq_foldl, joinParameters_eq_intercalate]
    rw [hstep]
    rfl
  · simp only [OnObjectFunction, hgen, emitWithConversion_plainExpression, hseed,
      joinParameters_eq_intercalate]
    rfl

/-- C8 on the sample collaborators: `Group.Physics::Speed(3, 4)` with a locale-string return
type; the codes of the object and automatism slots are left out of the joined text. -/
theorem OnObjectAutomatismFunction_fold_witness :
    (sampleInfo false).codeExtraInformation.customCodeGenerator = none
    ∧ (OnObjectAutomatismFunction sampleCollaborators "Speed"
        [⟨"Group"⟩, ⟨"Physics"⟩, ⟨"3"⟩, ⟨"4"⟩] (sampleInfo false) (sampleCallbacks "string")
        []).1.plainExpression
        = "buf" ++ ("gd::utf8::FromLocaleString("
            ++ "auto(obj2, Physics, [code(3), code(4)], auto(obj1, Physics, [code(3), code(4)], \"\"))"
            ++ ")") :=
  ⟨rfl, (OnObjectAutomatismFunction_fold sampleCollaborators "Speed" ⟨"Group"⟩ ⟨"Physics"⟩
    [⟨"3"⟩, ⟨"4"⟩] (sampleInfo false) (sampleCallbacks "string") [] rfl).1⟩

/-- C9, as stated, fails: in a diagnostics build, an enclosing compiler that holds the error
`Earlier error` at position 7 holds `Missing operand` at position 2 after an
`OnSubMathExpression` whose nested parse fails, and `Unterminated string` at position 4 after
such an `OnSubTextExpression`. -/
theorem first_error_overwritten_by_nested_failure :
    sampleFailedCallbacks.firstErrorStr = "Earlier error"
    ∧ sampleFailedCallbacks.firstErrorPos = 7
    ∧ (OnSubMathExpression true sampleParser ⟨"1+"⟩ sampleFailedCallbacks []).1 = false
    ∧ (OnSubMathExpression true sampleParser ⟨"1+"⟩ sampleFailedCallbacks []).2.1.firstErrorStr
        = "Missing operand"
    ∧ (OnSubMathExpression true sampleParser ⟨"1+"⟩ sampleFailedCallbacks []).2.1.firstErrorPos
        = 2
    ∧ (OnSubMathExpression true sampleParser ⟨"1+"⟩ sampleFailedCallbacks []).2.1.firstErrorStr
        ≠ sampleFailedCallbacks.firstErrorStr
    ∧ (OnSubMathExpression true sampleParser ⟨"1+"⟩ sampleFailedCallbacks []).2.1.firstErrorPos
        ≠ sampleFailedCallbacks.firstErrorPos
    ∧ (OnSubTextExpression true sampleParser ⟨"\"abc"⟩ sampleFailedCallbacks []).1 = false
    ∧ (OnSubTextExpression true sampleParser ⟨"\"abc"⟩ sampleFailedCallbacks
        []).2.1.firstErrorStr ≠ sampleFailedCallbacks.firstErrorStr
    ∧ (OnSubTextExpression true sampleParser ⟨"\"abc"⟩ sampleFailedCallbacks
        []).2.1.firstErrorPos ≠ sampleFailedCallbacks.firstErrorPos := by
  decide

/-- C9, amended: `OnSubMathExpression` and `OnSubTextExpression` leave the enclosing
compiler's error message and position (the whole callbacks object) unchanged when the nested
parse succeeds and, in a build without diagnostics, also when it fails; in a diagnostics
build a failing nested parse replaces them, whatever they were, by the nested compiler's
message and position, and changes nothing else of the enclosing compiler. -/
theorem enclosing_error_state_after_sub_expression {σ : Type} (GD_IDE_ONLY : Bool)
    (parser : ExpressionParser σ) (expression : Expression)
    (cb : CallbacksForGeneratingExpressionCode) (s : σ) :
    let fresh := CallbacksForGeneratingExpressionCode.new parser.defaultCallbacks ""
    let math := parser.ParseMathExpression expression.GetPlainString fresh s
    let text := parser.ParseStringExpression expression.GetPlainString fresh s
    (math.1 = true → (OnSubMathExpression GD_IDE_ONLY parser expression cb s).2.1 = cb)
    ∧ (text.1 = true → (OnSubTextExpression GD_IDE_ONLY parser expression cb s).2.1 = cb)
    ∧ (GD_IDE_ONLY = false →
        (OnSubMathExpression GD_IDE_ONLY parser expression cb s).2.1 = cb
        ∧ (OnSubTextExpression GD_IDE_ONLY parser expression cb s).2.1 = cb)
    ∧ (GD_IDE_ONLY = true → math.1 = false →
        (OnSubMathExpression GD_IDE_ONLY parser expression cb s).2.1
          = { cb with firstErrorStr := math.2.1.firstErrorStr,
                      firstErrorPos := math.2.1.firstErrorPos })
    ∧ (GD_IDE_ONLY = true → text.1 = false →
        (OnSubTextExpression GD_IDE_ONLY parser expression cb s).2.1
          = { cb with firstErrorStr := text.2.1.firstErrorStr,
                      firstErrorPos := text.2.1.firstErrorPos }) := by
  intro fresh math text
  refine ⟨?_, ?_, ?_, ?_, ?_⟩
  · intro hok
    have hok2 : (parser.ParseMathExpression expression.GetPlainString
        (CallbacksForGeneratingExpressionCode.new parser.defaultCallbacks "") s).1 = true := hok
    simp [OnSubMathExpression, hok2]
  · intro hok
    have hok2 : (parser.ParseStringExpression expression.GetPlainString
        (CallbacksForGeneratingExpressionCode.new parser.defaultCallbacks "") s).1 = true := hok
    simp [OnSubTextExpression, hok2]
  · intro hide
    subst hide
    constructor
    · cases h : (parser.ParseMathExpression expression.GetPlainString
        (CallbacksForGeneratingExpressionCode.new parser.defaultCallbacks "") s).1 <;>
        simp [OnSubMathExpression, captureFirstError, h]
    · cases h : (parser.ParseStringExpression expression.GetPlainString
        (CallbacksForGeneratingExpressionCode.new parser.defaultCallbacks "") s).1 <;>
        simp [OnSubTextExpression, captureFirstError, h]
  · intro hide hfail
    subst hide
    have hfail2 : (parser.ParseMathExpression expression.GetPlainString
        (CallbacksForGeneratingExpressionCode.new parser.defaultCallbacks "") s).1 = false :=
      hfail
    simp [OnSubMathExpression, hfail2, captureFirstError, math, fresh]
  · intro hide hfail
    subst hide
    have hfail2 : (parser.ParseStringExpression expression.GetPlainString
        (CallbacksForGeneratingExpressionCode.new parser.defaultCallbacks "") s).1 = false :=
      hfail
    simp [OnSubTextExpression, hfail2, captureFirstError, text, fresh]

/-- C9, amended, on the sample parser: the nested text `2+3` parses and the enclosing error
`Earlier error` stays; the nested text `1+` fails and, without diagnostics, it stays too. -/
theorem enclosing_error_state_after_sub_expression_witness :
    (sampleParser.ParseMathExpression "2+3"
        (CallbacksForGeneratingExpressionCode.new sampleParser.defaultCallbacks "") []).1 = true
    ∧ (OnSubMathExpression true sampleParser ⟨"2+3"⟩ sampleFailedCallbacks []).2.1
        = sampleFailedCallbacks
    ∧ (OnSubMathExpression false sampleParser ⟨"1+"⟩ sampleFailedCallbacks []).2.1
        = sampleFailedCallbacks
    ∧ (sampleParser.ParseStringExpression "\"abc"
        (CallbacksForGeneratingExpressionCode.new sampleParser.defaultCallbacks "") []).1 = false
    ∧ (OnSubTextExpression true sampleParser ⟨"\"abc"⟩ sampleFailedCallbacks []).2.1
        = { sampleFailedCallbacks with firstErrorStr := "Unterminated string",
                                       firstErrorPos := 4 } :=
  ⟨by decide,
    (enclosing_error_state_after_sub_expression true sampleParser ⟨"2+3"⟩
      sampleFailedCallbacks []).1 (by decide),
    ((enclosing_error_state_after_sub_expression false sampleParser ⟨"1+"⟩
      sampleFailedCallbacks []).2.2.1 rfl).1,
    by decide,
    (enclosing_error_state_after_sub_expression true sampleParser ⟨"\"abc"⟩
      sampleFailedCallbacks []).2.2.2.2 rfl (by decide)⟩

/-- C10: `OnSubMathExpression` (respectively `OnSubTextExpression`) returns what the nested
numeric (respectively string) parse of the expression's plain string returns, run on a fresh
compiler with an empty buffer and on the shared state of the call; when that parse fails it
returns false and, in a diagnostics build, the enclosing compiler's error message and
position after the call are those of the nested compiler. -/
theorem sub_expression_result_and_error_forwarding {σ : Type} (GD_IDE_ONLY : Bool)
    (parser : ExpressionParser σ) (expression : Expression)
    (cb : CallbacksForGeneratingExpressionCode) (s : σ) :
    let fresh := CallbacksForGeneratingExpressionCode.new parser.defaultCallbacks ""
    let math := parser.ParseMathExpression expression.GetPlainString fresh s
    let text := parser.ParseStringExpression expression.GetPlainString fresh s
    fresh.plainExpression = ""
    ∧ (OnSubMathExpression GD_IDE_ONLY parser expression cb s).1 = math.1
    ∧ (OnSubTextExpression GD_IDE_ONLY parser expression cb s).1 = text.1
    ∧ (math.1 = false → GD_IDE_ONLY = true →
        (OnSubMathExpression GD_IDE_ONLY parser expression cb s).2.1.firstErrorStr
          = math.2.1.firstErrorStr
        ∧ (OnSubMathExpression GD_IDE_ONLY parser expression cb s).2.1.firstErrorPos
          = math.2.1.firstErrorPos)
    ∧ (text.1 = false → GD_IDE_ONLY = true →
        (OnSubTextExpression GD_IDE_ONLY parser expression cb s).2.1.firstErrorStr
          = text.2.1.firstErrorStr
        ∧ (OnSubTextExpression GD_IDE_ONLY parser expression cb s).2.1.firstErrorPos
          = text.2.1.firstErrorPos) := by
  intro fresh math text
  refine ⟨rfl, ?_, ?_, ?_, ?_⟩
  · unfold OnSubMathExpression
    cases h : (parser.ParseMathExpression expression.GetPlainString
      (CallbacksForGeneratingExpressionCode.new parser.defaultCallbacks "") s).1 <;>
      simp [math, fresh, h]
  · unfold OnSubTextExpression
    cases h : (parser.ParseStringExpression expression.GetPlainString
      (CallbacksForGeneratingExpressionCode.new parser.defaultCallbacks "") s).1 <;>
      simp [text, fresh, h]
  · intro hfail hide
    subst hide
    have hfail2 : (parser.ParseMathExpression expression.GetPlainString
        (CallbacksForGeneratingExpressionCode.new parser.defaultCallbacks "") s).1 = false :=
      hfail
    simp [OnSubMathExpression, hfail2, captureFirstError, math, fresh]
  · intro hfail hide
    subst hide
    have hfail2 : (parser.ParseStringExpression expression.GetPlainString
        (CallbacksForGeneratingExpressionCode.new parser.defaultCallbacks "") s).1 = false :=
      hfail
    simp [OnSubTextExpression, hfail2, captureFirstError, text, fresh]

/-- C10 on the sample parser: the nested text `1+` fails in the numeric grammar; the callback
returns false and the enclosing compiler holds `Missing operand` at position 2. -/
theorem sub_expression_result_and_error_forwarding_witness :
    (sampleParser.ParseMathExpression "1+"
        (CallbacksForGeneratingExpressionCode.new sampleParser.defaultCallbacks "") []).1 = false
    ∧ (OnSubMathExpression true sampleParser ⟨"1+"⟩ (sampleCallbacks "expression") []).1 = false
    ∧ (OnSubMathExpression true sampleParser ⟨"1+"⟩ (sampleCallbacks "expression")
        []).2.1.firstErrorStr = "Missing operand"
    ∧ (OnSubMathExpression true sampleParser ⟨"1+"⟩ (sampleCallbacks "expression")
        []).2.1.firstErrorPos = 2 :=
  have h := sub_expression_result_and_error_forwarding true sampleParser ⟨"1+"⟩
    (sampleCallbacks "expression") []
  ⟨by decide, h.2.1, (h.2.2.2.1 (by decide) rfl).1, (h.2.2.2.1 (by decide) rfl).2⟩

/-- C11, as stated, fails: the statement the numeric generators return for the operator `=`
ends with a line feed after `);`. For `X = 2+3`, `ModVarScene` and `ModVarGlobal` return the
accessor followed by `.setNumber(2+3);` and a line feed. -/
theorem numeric_set_statement_ends_with_line_feed :
    (gdjs.variableGetter gdjs.sampleVariableParser .LAYOUT_VARIABLE "X" ["parse 2+3"]).1
        = "runtimeScene.getVariables().get(\"X\")"
    ∧ (gdjs.mathExpressionCode sampleParser "2+3" []).1 = "2+3"
    ∧ (gdjs.ModVarScene sampleParser gdjs.sampleVariableParser ⟨[⟨"X"⟩, ⟨"="⟩, ⟨"2+3"⟩]⟩
        []).map Prod.fst = some "runtimeScene.getVariables().get(\"X\").setNumber(2+3);\n"
    ∧ (gdjs.ModVarScene sampleParser gdjs.sampleVariableParser ⟨[⟨"X"⟩, ⟨"="⟩, ⟨"2+3"⟩]⟩
        []).map Prod.fst
        ≠ some ((gdjs.variableGetter gdjs.sampleVariableParser .LAYOUT_VARIABLE "X"
            ["parse 2+3"]).1 ++ ".setNumber(" ++ (gdjs.mathExpressionCode sampleParser "2+3"
            []).1 ++ ");")
    ∧ (gdjs.ModVarGlobal sampleParser gdjs.sampleVariableParser ⟨[⟨"X"⟩, ⟨"="⟩, ⟨"2+3"⟩]⟩
        []).map Prod.fst
        ≠ some ((gdjs.variableGetter gdjs.sampleVariableParser .PROJECT_VARIABLE "X"
            ["parse 2+3"]).1 ++ ".setNumber(" ++ (gdjs.mathExpressionCode sampleParser "2+3"
            []).1 ++ ");") := by
  decide

/-- C11, amended: for `ModVarScene` and `ModVarGlobal` with the operator `=`, given the
variable accessor text `v` and the compiled right-hand expression code `e`, the returned
statement is `v`, `.setNumber(`, `e`, `);` and a line feed. Here `e` is the text the numeric
parse leaves when it succeeds with a non-empty text, and `v` the text the variable parse
leaves when it succeeds. -/
theorem numeric_set_statement {σ : Type} (parser : ExpressionParser σ)
    (variableParser : gdjs.VariableParser σ) (p0 p1 p2 : Expression) (rest : List Expression)
    (s : σ) (hop : p1.GetPlainString = "=") :
    let parsed := parser.ParseMathExpression p2.GetPlainString
      (CallbacksForGeneratingExpressionCode.new parser.defaultCallbacks "") s
    let e := gdjs.mathExpressionCode parser p2.GetPlainString s
    let v := gdjs.variableGetter variableParser .LAYOUT_VARIABLE p0.GetPlainString e.2
    let w := gdjs.variableGetter variableParser .PROJECT_VARIABLE p0.GetPlainString e.2
    gdjs.ModVarScene parser variableParser ⟨p0 :: p1 :: p2 :: rest⟩ s
        = some (v.1 ++ ".setNumber(" ++ e.1 ++ ");\n", v.2)
    ∧ gdjs.ModVarGlobal parser variableParser ⟨p0 :: p1 :: p2 :: rest⟩ s
        = some (w.1 ++ ".setNumber(" ++ e.1 ++ ");\n", w.2)
    ∧ (parsed.1 = true → parsed.2.1.plainExpression ≠ "" →
        e = (parsed.2.1.plainExpression, parsed.2.2))
    ∧ ((variableParser.Parse .LAYOUT_VARIABLE p0.GetPlainString e.2).1 = true →
        v.1 = (variableParser.Parse .LAYOUT_VARIABLE p0.GetPlainString e.2).2.1)
    ∧ ((variableParser.Parse .PROJECT_VARIABLE p0.GetPlainString e.2).1 = true →
        w.1 = (variableParser.Parse .PROJECT_VARIABLE p0.GetPlainString e.2).2.1) := by
  intro parsed e v w
  refine ⟨?_, ?_, ?_, ?_, ?_⟩
  · simp [gdjs.ModVarScene, gdjs.Instruction.GetParameters, gdjs.numberStatement, hop, e, v]
  · simp [gdjs.ModVarGlobal, gdjs.Instruction.GetParameters, gdjs.numberStatement, hop, e, w]
  · intro hok hne
    have hok2 : (parser.ParseMathExpression p2.GetPlainString
        (CallbacksForGeneratingExpressionCode.new parser.defaultCallbacks "") s).1 = true := hok
    have hne2 : ¬ (parser.ParseMathExpression p2.GetPlainString
        (CallbacksForGeneratingExpressionCode.new parser.defaultCallbacks "")
        s).2.1.plainExpression = "" := hne
    simp [e, parsed, gdjs.mathExpressionCode, hok2, hne2]
  · intro hok
    simp [v, gdjs.variableGetter, hok]
  · intro hok
    simp [w, gdjs.variableGetter, hok]

/-- C11, amended, on the sample parsers: `X = 2+3` gives the `setNumber(2+3);` statement on
the scene variable `X`, followed by a line feed. -/
theorem numeric_set_statement_witness :
    (⟨"="⟩ : Expression).GetPlainString = "="
    ∧ gdjs.ModVarScene sampleParser gdjs.sampleVariableParser ⟨[⟨"X"⟩, ⟨"="⟩, ⟨"2+3"⟩]⟩ []
        = some ("runtimeScene.getVariables().get(\"X\")" ++ ".setNumber(" ++ "2+3" ++ ");\n",
            ["parse 2+3", "variable X"]) :=
  ⟨rfl, (numeric_set_statement sampleParser gdjs.sampleVariableParser ⟨"X"⟩ ⟨"="⟩ ⟨"2+3"⟩ [] []
    rfl).1⟩

/-- C12: for every literal text `t`, `OnConstantToken` appends `t` verbatim: the buffer after
the call is the buffer before it followed by `t`, nothing else of the callbacks object
changes, and a single constant token compiled from an empty buffer yields exactly `t`. -/
theorem OnConstantToken_appends_verbatim {σ : Type} (text : String)
    (cb : CallbacksForGeneratingExpressionCode) (base : ParserCallbacks)
    (GD_IDE_ONLY : Bool) (cg : Collaborators σ) (parser : ExpressionParser σ) (s : σ) :
    (OnConstantToken text cb).plainExpression = cb.plainExpression ++ text
    ∧ (OnConstantToken text cb).toParserCallbacks = cb.toParserCallbacks
    ∧ (OnConstantToken text
        (CallbacksForGeneratingExpressionCode.new base "")).plainExpression = text
    ∧ (runCallbacks GD_IDE_ONLY cg parser [.constantToken text]
        (CallbacksForGeneratingExpressionCode.new base "", s)).1.plainExpression = text := by
  refine ⟨rfl, rfl, ?_, ?_⟩
  · simp [OnConstantToken, CallbacksForGeneratingExpressionCode.append,
      CallbacksForGeneratingExpressionCode.new]
  · simp [runCallbacks, CallbackCall.run, OnConstantToken,
      CallbacksForGeneratingExpressionCode.append, CallbacksForGeneratingExpressionCode.new]

/-- C13: `OnSubMathExpression` and `OnSubTextExpression` never put the nested compiler's
output into the enclosing buffer: whether the nested parse succeeds or fails, in either
build, the enclosing buffer after the call is the buffer before the call. -/
theorem sub_expression_leaves_enclosing_buffer {σ : Type} (GD_IDE_ONLY : Bool)
    (parser : ExpressionParser σ) (expression : Expression)
    (cb : CallbacksForGeneratingExpressionCode) (s : σ) :
    (OnSubMathExpression GD_IDE_ONLY parser expression cb s).2.1.plainExpression
        = cb.plainExpression
    ∧ (OnSubTextExpression GD_IDE_ONLY parser expression cb s).2.1.plainExpression
        = cb.plainExpression := by
  constructor
  · cases h : (parser.ParseMathExpression expression.GetPlainString
      (CallbacksForGeneratingExpressionCode.new parser.defaultCallbacks "") s).1 <;>
      cases GD_IDE_ONLY <;> simp [OnSubMathExpression, captureFirstError, h]
  · cases h : (parser.ParseStringExpression expression.GetPlainString
      (CallbacksForGeneratingExpressionCode.new parser.defaultCallbacks "") s).1 <;>
      cases GD_IDE_ONLY <;> simp [OnSubTextExpression, captureFirstError, h]

theorem OnStaticFunction_extends_buffer {σ : Type} (cg : Collaborators σ)
    (functionName : String) (parameters : List Expression)
    (expressionInfo : ExpressionMetadata σ) (cb : CallbacksForGeneratingExpressionCode) (s : σ) :
    ∃ appended : String,
      (OnStaticFunction cg functionName parameters expressionInfo cb s).1.plainExpression
        = cb.plainExpression ++ appended := by
  unfold OnStaticFunction
  cases hgen : expressionInfo.codeExtraInformation.customCodeGenerator with
  | some gen => exact ⟨_, rfl⟩
  | none =>
    by_cases hbare : (cb.GetReturnType == "string" && functionName == "") = true
    · cases parameters with
      | nil => exact ⟨"", by simp [hbare]⟩
      | cons p0 rest => exact ⟨_, by simp only [hbare, if_true]; rfl⟩
    · exact ⟨_, by simp only [hbare, if_false]; exact emitWithConversion_plainExpression _ _ _⟩

theorem OnObjectFunction_extends_buffer {σ : Type} (cg : Collaborators σ)
    (functionName : String) (parameters : List Expression)
    (expressionInfo : ExpressionMetadata σ) (cb : CallbacksForGeneratingExpressionCode) (s : σ) :
    ∃ appended : String,
      (OnObjectFunction cg functionName parameters expressionInfo cb s).1.plainExpression
        = cb.plainExpression ++ appended := by
  cases parameters with
  | nil => exact ⟨"", by simp [OnObjectFunction]⟩
  | cons p0 rest =>
    cases hgen : expressionInfo.codeExtraInformation.customCodeGenerator with
    | some gen =>
      exact ⟨_, by simp only [OnObjectFunction, hgen]; rfl⟩
    | none =>
      exact ⟨_, by
        simp only [OnObjectFunction, hgen]
        exact emitWithConversion_plainExpression _ _ _⟩

theorem OnObjectAutomatismFunction_extends_buffer {σ : Type} (cg : Collaborators σ)
    (functionName : String) (parameters : List Expression)
    (expressionInfo : ExpressionMetadata σ) (cb : CallbacksForGeneratingExpressionCode) (s : σ) :
    ∃ appended : String,
      (OnObjectAutomatismFunction cg functionName parameters expressionInfo cb
          s).1.plainExpression = cb.plainExpression ++ appended := by
  match parameters with
  | [] => exact ⟨"", by simp [OnObjectAutomatismFunction]⟩
  | [_] => exact ⟨"", by simp [OnObjectAutomatismFunction]⟩
  | p0 :: p1 :: rest =>
    cases hgen : expressionInfo.codeExtraInformation.customCodeGenerator with
    | some gen =>
      exact ⟨_, by simp only [OnObjectAutomatismFunction, hgen]; rfl⟩
    | none =>
      exact ⟨_, by
        simp only [OnObjectAutomatismFunction, hgen]
        exact emitWithConversion_plainExpression _ _ _⟩

theorem OnSubExpression_keeps_buffer {σ : Type} (GD_IDE_ONLY : Bool)
    (parser : ExpressionParser σ) (expression : Expression)
    (cb : CallbacksForGeneratingExpressionCode) (s : σ) :
    (OnSubMathExpression GD_IDE_ONLY parser expression cb s).2.1.plainExpression
        = cb.plainExpression ++ ""
    ∧ (OnSubTextExpression GD_IDE_ONLY parser expression cb s).2.1.plainExpression
        = cb.plainExpression ++ "" := by
  constructor
  · cases h : (parser.ParseMathExpression expression.GetPlainString
      (CallbacksForGeneratingExpressionCode.new parser.defaultCallbacks "") s).1 <;>
      cases GD_IDE_ONLY <;> simp [OnSubMathExpression, captureFirstError, h]
  · cases h : (parser.ParseStringExpression expression.GetPlainString
      (CallbacksForGeneratingExpressionCode.new parser.defaultCallbacks "") s).1 <;>
      cases GD_IDE_ONLY <;> simp [OnSubTextExpression, captureFirstError, h]

theorem CallbackCall_run_extends_buffer {σ : Type} (GD_IDE_ONLY : Bool) (cg : Collaborators σ)
    (parser : ExpressionParser σ) (call : CallbackCall σ)
    (st : CallbacksForGeneratingExpressionCode × σ) :
    ∃ appended : String,
      (call.run GD_IDE_ONLY cg parser st).1.plainExpression
        = st.1.plainExpression ++ appended := by
  cases call with
  | constantToken text => exact ⟨text, rfl⟩
  | staticFunction f ps info => exact OnStaticFunction_extends_buffer cg f ps info st.1 st.2
  | objectFunction f ps info => exact OnObjectFunction_extends_buffer cg f ps info st.1 st.2
  | objectAutomatismFunction f ps info =>
    exact OnObjectAutomatismFunction_extends_buffer cg f ps info st.1 st.2
  | subMathExpression e =>
    exact ⟨"", (OnSubExpression_keeps_buffer GD_IDE_ONLY parser e st.1 st.2).1⟩
  | subTextExpression e =>
    exact ⟨"", (OnSubExpression_keeps_buffer GD_IDE_ONLY parser e st.1 st.2).2⟩

theorem runCallbacks_extends_buffer {σ : Type} (GD_IDE_ONLY : Bool) (cg : Collaborators σ)
    (parser : ExpressionParser σ) :
    ∀ (calls : List (CallbackCall σ)) (st : CallbacksForGeneratingExpressionCode × σ),
      ∃ appended : String,
        (runCallbacks GD_IDE_ONLY cg parser calls st).1.plainExpression
          = st.1.plainExpression ++ appended := by
  intro calls
  induction calls with
  | nil => intro st; exact ⟨"", by simp [runCallbacks]⟩
  | cons call rest ih =>
    intro st
    obtain ⟨first, hfirst⟩ := CallbackCall_run_extends_buffer GD_IDE_ONLY cg parser call st
    obtain ⟨others, hothers⟩ := ih (call.run GD_IDE_ONLY cg parser st)
    refine ⟨first ++ others, ?_⟩
    have hrun : runCallbacks GD_IDE_ONLY cg parser (call :: rest) st
        = runCallbacks GD_IDE_ONLY cg parser rest (call.run GD_IDE_ONLY cg parser st) := rfl
    rw [hrun, hothers, hfirst, String.append_assoc]

/-- C14: the output buffer is append-only under every callback: for `OnConstantToken`,
`OnStaticFunction`, `OnObjectFunction`, `OnObjectAutomatismFunction`, `OnSubMathExpression`
and `OnSubTextExpression`, for every input and all collaborators, the buffer after the call
is the buffer before it followed by some text; hence the same holds after any finite sequence
of callbacks. -/
theorem buffer_append_only {σ : Type} (GD_IDE_ONLY : Bool) (cg : Collaborators σ)
    (parser : ExpressionParser σ) (text functionName : String) (parameters : List Expression)
    (expressionInfo : ExpressionMetadata σ) (expression : Expression)
    (calls : List (CallbackCall σ)) (cb : CallbacksForGeneratingExpressionCode) (s : σ) :
    (∃ appended : String,
      (OnConstantToken text cb).plainExpression = cb.plainExpression ++ appended)
    ∧ (∃ appended : String,
        (OnStaticFunction cg functionName parameters expressionInfo cb s).1.plainExpression
          = cb.plainExpression ++ appended)
    ∧ (∃ appended : String,
        (OnObjectFunction cg functionName parameters expressionInfo cb s).1.plainExpression
          = cb.plainExpression ++ appended)
    ∧ (∃ appended : String,
        (OnObjectAutomatismFunction cg functionName parameters expressionInfo cb
            s).1.plainExpression = cb.plainExpression ++ appended)
    ∧ (∃ appended : String,
        (OnSubMathExpression GD_IDE_ONLY parser expression cb s).2.1.plainExpression
          = cb.plainExpression ++ appended)
    ∧ (∃ appended : String,
        (OnSubTextExpression GD_IDE_ONLY parser expression cb s).2.1.plainExpression
          = cb.plainExpression ++ appended)
    ∧ (∃ appended : String,
        (runCallbacks GD_IDE_ONLY cg parser calls (cb, s)).1.plainExpression
          = cb.plainExpression ++ appended)
    ∧ cb.plainExpression.data
        <+: (runCallbacks GD_IDE_ONLY cg parser calls (cb, s)).1.plainExpression.data := by
  refine ⟨⟨text, rfl⟩, OnStaticFunction_extends_buffer cg functionName parameters
    expressionInfo cb s, OnObjectFunction_extends_buffer cg functionName parameters
    expressionInfo cb s, OnObjectAutomatismFunction_extends_buffer cg functionName parameters
    expressionInfo cb s,
    ⟨"", (OnSubExpression_keeps_buffer GD_IDE_ONLY parser expression cb s).1⟩,
    ⟨"", (OnSubExpression_keeps_buffer GD_IDE_ONLY parser expression cb s).2⟩,
    runCallbacks_extends_buffer GD_IDE_ONLY cg parser calls (cb, s), ?_⟩
  obtain ⟨appended, h⟩ := runCallbacks_extends_buffer GD_IDE_ONLY cg parser calls (cb, s)
  rw [h]
  exact ⟨appended.data, by simp⟩

theorem mathExpressionCode_ne_empty {σ : Type} (parser : ExpressionParser σ)
    (plainString : String) (s : σ) :
    (gdjs.mathExpressionCode parser plainString s).1 ≠ "" := by
  unfold gdjs.mathExpressionCode
  cases hok : (parser.ParseMathExpression plainString
      (CallbacksForGeneratingExpressionCode.new parser.defaultCallbacks "") s).1
  · simp [hok]
  · by_cases hne : (parser.ParseMathExpression plainString
        (CallbacksForGeneratingExpressionCode.new parser.defaultCallbacks "")
        s).2.1.plainExpression = ""
    · simp [hok, hne]
    · simp [hok, hne]

theorem stringExpressionCode_ne_empty {σ : Type} (parser : ExpressionParser σ)
    (plainString : String) (s : σ) :
    (gdjs.stringExpressionCode parser plainString s).1 ≠ "" := by
  unfold gdjs.stringExpressionCode
  cases hok : (parser.ParseStringExpression plainString
      (CallbacksForGeneratingExpressionCode.new parser.defaultCallbacks "") s).1
  · simp [hok]
  · by_cases hne : (parser.ParseStringExpression plainString
        (CallbacksForGeneratingExpressionCode.new parser.defaultCallbacks "")
        s).2.1.plainExpression = ""
    · simp [hok, hne]
    · simp [hok, hne]

theorem numberStatement_shape (op varGetter expressionCode : String)
    (hop : op ∈ ["=", "+", "-", "*", "/"]) :
    ∃ method : String, gdjs.numberStatement op varGetter expressionCode
      = varGetter ++ ("." ++ method ++ "(") ++ expressionCode ++ ");\n" := by
  simp only [List.mem_cons, List.mem_singleton, List.mem_nil_iff, or_false] at hop
  rcases hop with h | h | h | h | h <;> subst h
  · exact ⟨"setNumber", by simp [gdjs.numberStatement]⟩
  · exact ⟨"add", by simp [gdjs.numberStatement]⟩
  · exact ⟨"sub", by simp [gdjs.numberStatement]⟩
  · exact ⟨"mul", by simp [gdjs.numberStatement]⟩
  · exact ⟨"div", by simp [gdjs.numberStatement]⟩

theorem stringStatement_shape (op varGetter expressionCode : String)
    (hop : op ∈ ["=", "+"]) :
    ∃ method : String, gdjs.stringStatement op varGetter expressionCode
      = varGetter ++ ("." ++ method ++ "(") ++ expressionCode ++ ");\n" := by
  simp only [List.mem_cons, List.mem_singleton, List.mem_nil_iff, or_false] at hop
  rcases hop with h | h <;> subst h
  · exact ⟨"setString", by simp [gdjs.stringStatement]⟩
  · exact ⟨"concatenate", by simp [gdjs.stringStatement]⟩

/-- C15: the four variable-modification generators never emit a call with an empty argument:
the argument is never the empty text; when the right-hand expression fails to parse or
compiles to the empty text it is `0` in `ModVarScene` and `ModVarGlobal` and `""` in
`ModVarSceneTxt` and `ModVarGlobalTxt`; and for every recognised operator the returned
statement is the variable getter, a method call with that argument between the parentheses,
`;` and a line feed. -/
theorem variable_action_argument_nonempty {σ : Type} (parser : ExpressionParser σ)
    (variableParser : gdjs.VariableParser σ) (p0 p1 p2 : Expression) (rest : List Expression)
    (s : σ) :
    let math := parser.ParseMathExpression p2.GetPlainString
      (CallbacksForGeneratingExpressionCode.new parser.defaultCallbacks "") s
    let text := parser.ParseStringExpression p2.GetPlainString
      (CallbacksForGeneratingExpressionCode.new parser.defaultCallbacks "") s
    let e := gdjs.mathExpressionCode parser p2.GetPlainString s
    let t := gdjs.stringExpressionCode parser p2.GetPlainString s
    e.1 ≠ "" ∧ t.1 ≠ ""
    ∧ (math.1 = false ∨ math.2.1.plainExpression = "" → e.1 = "0")
    ∧ (text.1 = false ∨ text.2.1.plainExpression = "" → t.1 = "\"\"")
    ∧ (p1.GetPlainString ∈ ["=", "+", "-", "*", "/"] →
        (∃ method : String,
          gdjs.ModVarScene parser variableParser ⟨p0 :: p1 :: p2 :: rest⟩ s
            = some ((gdjs.variableGetter variableParser .LAYOUT_VARIABLE p0.GetPlainString
                  e.2).1 ++ ("." ++ method ++ "(") ++ e.1 ++ ");\n",
                (gdjs.variableGetter variableParser .LAYOUT_VARIABLE p0.GetPlainString e.2).2))
        ∧ ∃ method : String,
          gdjs.ModVarGlobal parser variableParser ⟨p0 :: p1 :: p2 :: rest⟩ s
            = some ((gdjs.variableGetter variableParser .PROJECT_VARIABLE p0.GetPlainString
                  e.2).1 ++ ("." ++ method ++ "(") ++ e.1 ++ ");\n",
                (gdjs.variableGetter variableParser .PROJECT_VARIABLE p0.GetPlainString
                  e.2).2))
    ∧ (p1.GetPlainString ∈ ["=", "+"] →
        (∃ method : String,
          gdjs.ModVarSceneTxt parser variableParser ⟨p0 :: p1 :: p2 :: rest⟩ s
            = some ((gdjs.variableGetter variableParser .LAYOUT_VARIABLE p0.GetPlainString
                  t.2).1 ++ ("." ++ method ++ "(") ++ t.1 ++ ");\n",
                (gdjs.variableGetter variableParser .LAYOUT_VARIABLE p0.GetPlainString t.2).2))
        ∧ ∃ method : String,
          gdjs.ModVarGlobalTxt parser variableParser ⟨p0 :: p1 :: p2 :: rest⟩ s
            = some ((gdjs.variableGetter variableParser .PROJECT_VARIABLE p0.GetPlainString
                  t.2).1 ++ ("." ++ method ++ "(") ++ t.1 ++ ");\n",
                (gdjs.variableGetter variableParser .PROJECT_VARIABLE p0.GetPlainString
                  t.2).2)) := by
  intro math text e t
  refine ⟨mathExpressionCode_ne_empty parser _ s, stringExpressionCode_ne_empty parser _ s,
    ?_, ?_, ?_, ?_⟩
  · intro hfail
    have hfail2 : (parser.ParseMathExpression p2.GetPlainString
        (CallbacksForGeneratingExpressionCode.new parser.defaultCallbacks "") s).1 = false
        ∨ (parser.ParseMathExpression p2.GetPlainString
          (CallbacksForGeneratingExpressionCode.new parser.defaultCallbacks "")
          s).2.1.plainExpression = "" := hfail
    rcases hfail2 with h | h <;> simp [e, gdjs.mathExpressionCode, h]
  · intro hfail
    have hfail2 : (parser.ParseStringExpression p2.GetPlainString
        (CallbacksForGeneratingExpressionCode.new parser.defaultCallbacks "") s).1 = false
        ∨ (parser.ParseStringExpression p2.GetPlainString
          (CallbacksForGeneratingExpressionCode.new parser.defaultCallbacks "")
          s).2.1.plainExpression = "" := hfail
    rcases hfail2 with h | h <;> simp [t, gdjs.stringExpressionCode, h]
  · intro hop
    constructor
    · obtain ⟨method, hm⟩ := numberStatement_shape p1.GetPlainString
        (gdjs.variableGetter variableParser .LAYOUT_VARIABLE p0.GetPlainString e.2).1 e.1 hop
      exact ⟨method, by
        simp only [gdjs.ModVarScene, gdjs.Instruction.GetParameters]
        rw [← hm]⟩
    · obtain ⟨method, hm⟩ := numberStatement_shape p1.GetPlainString
        (gdjs.variableGetter variableParser .PROJECT_VARIABLE p0.GetPlainString e.2).1 e.1 hop
      exact ⟨method, by
        simp only [gdjs.ModVarGlobal, gdjs.Instruction.GetParameters]
        rw [← hm]⟩
  · intro hop
    constructor
    · obtain ⟨method, hm⟩ := stringStatement_shape p1.GetPlainString
        (gdjs.variableGetter variableParser .LAYOUT_VARIABLE p0.GetPlainString t.2).1 t.1 hop
      exact ⟨method, by
        simp only [gdjs.ModVarSceneTxt, gdjs.Instruction.GetParameters]
        rw [← hm]⟩
    · obtain ⟨method, hm⟩ := stringStatement_shape p1.GetPlainString
        (gdjs.variableGetter variableParser .PROJECT_VARIABLE p0.GetPlainString t.2).1 t.1 hop
      exact ⟨method, by
        simp only [gdjs.ModVarGlobalTxt, gdjs.Instruction.GetParameters]
        rw [← hm]⟩

/-- C15 on the sample parsers: a right-hand expression that compiles to the empty text gives
the argument `0` in `ModVarScene` with the operator `*`, and one that fails to parse gives
the argument `""` in `ModVarGlobalTxt` with the operator `+`. -/
theorem variable_action_argument_nonempty_witness :
    (gdjs.silentParser.ParseMathExpression "1"
        (CallbacksForGeneratingExpressionCode.new gdjs.silentParser.defaultCallbacks "")
        []).2.1.plainExpression = ""
    ∧ (gdjs.mathExpressionCode gdjs.silentParser "1" []).1 = "0"
    ∧ (⟨"*"⟩ : Expression).GetPlainString ∈ ["=", "+", "-", "*", "/"]
    ∧ (∃ method : String,
        gdjs.ModVarScene gdjs.silentParser gdjs.sampleVariableParser
            ⟨[⟨"X"⟩, ⟨"*"⟩, ⟨"1"⟩]⟩ []
          = some ("runtimeScene.getVariables().get(\"X\")" ++ ("." ++ method ++ "(") ++ "0"
              ++ ");\n", ["variable X"]))
    ∧ (sampleParser.ParseStringExpression "\"abc"
        (CallbacksForGeneratingExpressionCode.new sampleParser.defaultCallbacks "") []).1
        = false
    ∧ (gdjs.stringExpressionCode sampleParser "\"abc" []).1 = "\"\"" :=
  ⟨by decide,
    (variable_action_argument_nonempty gdjs.silentParser gdjs.sampleVariableParser ⟨"X"⟩ ⟨"*"⟩
      ⟨"1"⟩ [] []).2.2.1 (Or.inr (by decide)),
    by decide,
    ((variable_action_argument_nonempty gdjs.silentParser gdjs.sampleVariableParser ⟨"X"⟩ ⟨"*"⟩
      ⟨"1"⟩ [] []).2.2.2.2.1 (by decide)).1,
    by decide,
    (variable_action_argument_nonempty sampleParser gdjs.sampleVariableParser ⟨"X"⟩ ⟨"+"⟩
      ⟨"\"abc"⟩ [] []).2.2.2.1 (Or.inl (by decide))⟩

end gd
